import Mathlib

/-!
# dmkit `RemoteServiceManager`: a shallow embedding

Lean model of `src/remote_service_manager.cpp`: the configuration loader
(`load_channel_map`), the snapshot holder (`init`, `reload`) and the dispatcher
(`call`, `call_http_by_BRPC_NAMESPACE`, `call_http_by_curl`).

The collaborators that the translation unit only consumes (rapidjson, the brpc
channel, libcurl, the file system, the notice log) appear as data: a parsed
document is a `Json` value, the outcome of `Channel::Init`, `CallMethod` and
`curl_easy_perform` is supplied by an environment, and every request handed to
a transport and every notice entry is returned as part of the outcome of `call`.

Text is a `String`. A JSON string may hold NUL characters; the loader copies
every string value, service name and header name through `GetString()`, a
`const char*`, into a `std::string`, which keeps the characters before the first
NUL (`c_str`). The keys of the settings are compared whole by `FindMember`.
C `int` is an `Int` kept in the 32-bit range by `IsInt` and `wrapInt32`.
-/

namespace dmkit

/-! ## rapidjson values, as far as the loader inspects them -/

/-- The text that a `std::string` built from a `const char*` holds: the
characters before the first NUL. -/
def c_str (s : String) : String :=
  String.mk (s.data.takeWhile fun c => decide (c ≠ Char.ofNat 0))

/-- A parsed rapidjson value. `int` is a number written without fraction or
exponent, `real` any other number (kept as its text). An object keeps its
members in document order, duplicates included. -/
inductive Json where
  | null : Json
  | bool (b : Bool) : Json
  | int (i : Int) : Json
  | real (text : String) : Json
  | str (s : String) : Json
  | arr (items : List Json) : Json
  | obj (members : List (String × Json)) : Json

namespace Json

/-- Value test `IsObject()`. -/
def IsObject : Json → Bool
  | obj _ => true
  | _ => false

/-- Value test `IsString()`. -/
def IsString : Json → Bool
  | str _ => true
  | _ => false

/-- Value test `IsInt()`: an integer number that fits a signed 32-bit `int`. -/
def IsInt : Json → Bool
  | int i => decide (-2147483648 ≤ i) && decide (i ≤ 2147483647)
  | _ => false

/-- Accessor `GetString()`, called only after `IsString()`, as the loader uses
it: the `const char*` is copied into a `std::string`, which ends at the first
NUL. -/
def GetString : Json → String
  | str s => c_str s
  | _ => ""

/-- Accessor `GetInt()`, called only after `IsInt()`. -/
def GetInt : Json → Int
  | int i => i
  | _ => 0

/-- The members of an object from `MemberBegin()` to `MemberEnd()`. -/
def members : Json → List (String × Json)
  | obj ms => ms
  | _ => []

end Json

/-- Lookup `FindMember(name)` over the members of an object: the first member
with that name, `none` standing for `MemberEnd()`. -/
def FindMember : List (String × Json) → String → Option Json
  | [], _ => none
  | (k, v) :: rest, name => if k = name then some v else FindMember rest name

/-! ## The channel table -/

/-- The options handed to `Channel::Init` (protocol is always `PROTOCOL_HTTP`). -/
structure ChannelOptions where
  timeout_ms : Int
  max_retry : Int
deriving DecidableEq, Repr

/-- A pooled brpc channel that was initialised successfully, identified by the
arguments of its `Init` call. -/
structure Channel where
  naming_service_url : String
  load_balancer_name : String
  options : ChannelOptions
deriving DecidableEq, Repr

/-- The aggregate `RemoteServiceChannel` as built at the end of the loader's loop
body; `channel = none` is the null pointer. -/
structure RemoteServiceChannel where
  name : String
  protocol : String
  channel : Option Channel
  timeout_ms : Int
  max_retry : Int
  headers : List (String × String)
deriving DecidableEq, Repr

/-- Modelled from the spec: the header that declares `ChannelMap` is not part of
the sources; the spec calls a snapshot "an immutable mapping service name →
(ServiceChannelSpec, backend handle)". It is a standard associative container
with unique keys, used through `find`, `insert`, `operator[]` and iteration;
the model keeps the entries in insertion order. -/
abbrev ChannelMap := List (String × RemoteServiceChannel)

namespace ChannelMap

/-- Member `find(key)`; `none` stands for `end()`. -/
def find : ChannelMap → String → Option RemoteServiceChannel
  | [], _ => none
  | (k, v) :: rest, key => if k = key then some v else find rest key

/-- Member `insert({key, value})`: a key already present keeps its old value. -/
def insert (m : ChannelMap) (key : String) (value : RemoteServiceChannel) : ChannelMap :=
  match find m key with
  | some _ => m
  | none => m ++ [(key, value)]

/-- The value-initialised `RemoteServiceChannel` that `operator[]` would insert. -/
def defaultChannel : RemoteServiceChannel :=
  { name := "", protocol := "", channel := none, timeout_ms := 0, max_retry := 0, headers := [] }

/-- Member `operator[](key)`: the mapped value, inserting a value-initialised one
when the key is absent. Returns the value and the container afterwards. -/
def subscript (m : ChannelMap) (key : String) : RemoteServiceChannel × ChannelMap :=
  match find m key with
  | some v => (v, m)
  | none => (defaultChannel, m ++ [(key, defaultChannel)])

end ChannelMap

/-! ## `load_channel_map` -/

/-- Return code of `Channel::Init(naming_service_url, load_balancer_name, &options)`,
supplied by the pooled transport; `0` is success. -/
abbrev ChannelInit := String → String → ChannelOptions → Int

/-- The inner loop of `load_channel_map` over the members of the `headers`
object (lines 251-262): `none` is the early `return nullptr`. The header key is
the member's name copied from `name.GetString()` (line 253). -/
def load_headers : List (String × Json) → List (String × String) →
    Option (List (String × String))
  | [], headers => some headers
  | (name, value) :: rest, headers =>
    if ¬ value.IsString then none
    else load_headers rest (headers ++ [(c_str name, value.GetString)])

/-- The pattern `FindMember(name)`, fail unless found and `IsString()`, then
`GetString()` (lines 193-200, 203-210, 213-220). -/
def string_member (settings : List (String × Json)) (name : String) : Option String :=
  match FindMember settings name with
  | none => none
  | some value => if ¬ value.IsString then none else some value.GetString

/-- The pattern `FindMember(name)`, fail unless found and `IsInt()`, then
`GetInt()` (lines 228-235, 237-244). -/
def int_member (settings : List (String × Json)) (name : String) : Option Int :=
  match FindMember settings name with
  | none => none
  | some value => if ¬ value.IsInt then none else some value.GetInt

/-- The optional `client` setting (lines 222-226): empty unless found as a string. -/
def client_member (settings : List (String × Json)) : String :=
  match FindMember settings "client" with
  | none => ""
  | some value => if value.IsString then value.GetString else ""

/-- The optional `headers` setting (lines 246-263): empty unless found as an
object, else the result of the inner loop. -/
def headers_member (settings : List (String × Json)) : Option (List (String × String)) :=
  match FindMember settings "headers" with
  | none => some []
  | some value => if value.IsObject then load_headers value.members [] else some []

/-- The tail of the loop body (lines 265-301): the channel is created according to
`protocol` and `client`, and the `RemoteServiceChannel` is assembled. -/
def make_service_channel (Init : ChannelInit) (service_name naming_service_url
    load_balancer_name protocol client : String) (timeout_ms retry : Int)
    (headers : List (String × String)) : Option RemoteServiceChannel :=
  if protocol = "http" then
    if client = "" ∨ client = "brpc" then
      let options : ChannelOptions := { timeout_ms := timeout_ms, max_retry := retry }
      if Init naming_service_url load_balancer_name options ≠ 0 then none
      else
        some { name := service_name, protocol := protocol,
               channel := some { naming_service_url := naming_service_url,
                                 load_balancer_name := load_balancer_name,
                                 options := options },
               timeout_ms := timeout_ms, max_retry := retry, headers := headers }
    else if client = "curl" then
      some { name := service_name, protocol := protocol, channel := none,
             timeout_ms := timeout_ms, max_retry := retry, headers := headers }
    else none
  else none

/-- One pass of the body of the service loop of `load_channel_map` (lines 182-301):
the `RemoteServiceChannel` to insert, or `none` for `return nullptr`. -/
def load_service (Init : ChannelInit) (service_name : String) (value : Json) :
    Option RemoteServiceChannel :=
  if ¬ value.IsObject then none
  else
    let settings := value.members
    match string_member settings "naming_service_url" with
    | none => none
    | some naming_service_url =>
    match string_member settings "load_balancer_name" with
    | none => none
    | some load_balancer_name =>
    match string_member settings "protocol" with
    | none => none
    | some protocol =>
    let client := client_member settings
    match int_member settings "timeout_ms" with
    | none => none
    | some timeout_ms =>
    match int_member settings "retry" with
    | none => none
    | some retry =>
    match headers_member settings with
    | none => none
    | some headers =>
      make_service_channel Init service_name naming_service_url load_balancer_name
        protocol client timeout_ms retry headers

/-- The service loop of `load_channel_map` (lines 180-304) over the members of the
document, `channel_map` being the table built so far. The service name is the
member's name copied from `name.GetString()` (line 182). -/
def load_services (Init : ChannelInit) :
    List (String × Json) → ChannelMap → Option ChannelMap
  | [], channel_map => some channel_map
  | (name, value) :: rest, channel_map =>
    match load_service Init (c_str name) value with
    | none => none
    | some service_channel =>
      load_services Init rest (ChannelMap.insert channel_map (c_str name) service_channel)

/-- What `fopen` and `ParseStream` yield for the configuration file. -/
inductive ConfFile where
  | unreadable : ConfFile
  | parseError : ConfFile
  | document (doc : Json) : ConfFile

/-- The function `RemoteServiceManager::load_channel_map`, on what the
configuration file holds; `none` is `nullptr`. -/
def load_channel_map (Init : ChannelInit) : ConfFile → Option ChannelMap
  | .document doc =>
    if ¬ doc.IsObject then none else load_services Init doc.members []
  | _ => none

/-! ## The two transports -/

/-- The request method carried by `RemoteServiceParam`. -/
inductive HttpMethod where
  | HTTP_METHOD_GET : HttpMethod
  | HTTP_METHOD_POST : HttpMethod
deriving DecidableEq, Repr

/-- A call made on `cntl.http_request()` by the header loop of the pooled path. -/
inductive HeaderCall where
  | set_content_type (value : String) : HeaderCall
  | SetHeader (name : String) (value : String) : HeaderCall
deriving DecidableEq, Repr

/-- The request side of the brpc `Controller` at the moment of `CallMethod`:
the uri, whether the method was set to POST, the request attachment, and the
calls made by the header loop, in order. -/
structure Controller where
  uri : String
  method : HttpMethod
  request_attachment : String
  header_calls : List HeaderCall
deriving DecidableEq, Repr

/-- What the controller reports after `CallMethod`: `Failed()`, the response
attachment, `endpoint2str(remote_side())` and `latency_us()`. -/
structure ControllerOutcome where
  Failed : Bool
  response_attachment : String
  remote_side : String
  latency_us : Int
deriving DecidableEq, Repr

/-- The options set on the curl easy handle before `curl_easy_perform`. -/
structure CurlRequest where
  url : String
  post : Option String
  httpheader : List String
  timeout_ms : Int
deriving DecidableEq, Repr

/-- What libcurl reports for one `curl_easy_perform`: the result code (`0` is
`CURLE_OK`), the bytes written to the response buffer, the value of
`total_time * 1000` converted to `int` when the `CURLINFO_TOTAL_TIME` query
succeeds, and the primary ip when that query succeeds with a non-null string. -/
structure CurlOutcome where
  res : Nat
  response_buffer : String
  total_time_ms : Option Int
  primary_ip : Option String
deriving DecidableEq, Repr

/-- The collaborators of `call`: the pooled transport, and libcurl
(`curl_easy_init` succeeding or not, and `curl_easy_perform`). -/
structure Transports where
  CallMethod : Channel → Controller → ControllerOutcome
  curl_easy_init : Bool
  curl_easy_perform : CurlRequest → CurlOutcome

/-- A request that reached a transport. -/
inductive Sent where
  | brpc (channel : Channel) (cntl : Controller) : Sent
  | curl (request : CurlRequest) : Sent
deriving DecidableEq, Repr

/-- The return value of a transport function together with its three reference
parameters after the call and the requests it issued. -/
structure HttpOutcome where
  ret : Int
  result : String
  remote_side : String
  latency : Int
  sent : List Sent
deriving DecidableEq, Repr

/-- Conversion of a 64-bit quotient to C `int`. -/
def wrapInt32 (x : Int) : Int :=
  (x + 2147483648) % 4294967296 - 2147483648

/-- The header loop of `call_http_by_BRPC_NAMESPACE` (lines 323-329). -/
def brpc_header_calls : List (String × String) → List HeaderCall
  | [] => []
  | header :: rest =>
    if header.1 = "Content-Type" ∨ header.1 = "content-type" then
      HeaderCall.set_content_type header.2 :: brpc_header_calls rest
    else
      HeaderCall.SetHeader header.1 header.2 :: brpc_header_calls rest

/-- The function `RemoteServiceManager::call_http_by_BRPC_NAMESPACE`; `result`,
`remote_side` and `latency` are the reference parameters on entry. -/
def call_http_by_BRPC_NAMESPACE (t : Transports) (channel : Channel) (url : String)
    (method : HttpMethod) (headers : List (String × String)) (payload : String)
    (result : String) (remote_side : String) (latency : Int) : HttpOutcome :=
  let cntl : Controller :=
    { uri := url
      method := method
      request_attachment := if method = HttpMethod.HTTP_METHOD_POST then payload else ""
      header_calls := brpc_header_calls headers }
  let out := t.CallMethod channel cntl
  let _unused := (remote_side, latency)
  if out.Failed then
    { ret := -1, result := result, remote_side := out.remote_side,
      latency := wrapInt32 (Int.tdiv out.latency_us 1000), sent := [Sent.brpc channel cntl] }
  else
    { ret := 0, result := out.response_attachment, remote_side := out.remote_side,
      latency := wrapInt32 (Int.tdiv out.latency_us 1000), sent := [Sent.brpc channel cntl] }

/-- The header loop of `call_http_by_curl` (lines 383-388): the `curl_slist`. -/
def curl_header_lines : List (String × String) → List String
  | [] => []
  | header :: rest => (header.1 ++ ": " ++ header.2) :: curl_header_lines rest

/-- The function `RemoteServiceManager::call_http_by_curl`; `result`,
`remote_side` and `latency` are the reference parameters on entry. -/
def call_http_by_curl (t : Transports) (url : String) (method : HttpMethod)
    (headers : List (String × String)) (payload : String) (timeout_ms : Int)
    (max_retry : Int) (result : String) (remote_side : String) (latency : Int) :
    HttpOutcome :=
  let _unused := max_retry
  if ¬ t.curl_easy_init then
    { ret := -1, result := result, remote_side := remote_side, latency := latency, sent := [] }
  else
    let request : CurlRequest :=
      { url := url
        post := if method = HttpMethod.HTTP_METHOD_POST then some payload else none
        httpheader := curl_header_lines headers
        timeout_ms := timeout_ms }
    let out := t.curl_easy_perform request
    if out.res ≠ 0 then
      { ret := -1, result := result, remote_side := remote_side, latency := latency,
        sent := [Sent.curl request] }
    else
      { ret := 0
        result := out.response_buffer
        remote_side := match out.primary_ip with
          | some ip => ip
          | none => remote_side
        latency := match out.total_time_ms with
          | some ms => ms
          | none => latency
        sent := [Sent.curl request] }

/-! ## The manager: `init`, `reload`, `call` -/

/-- The data members of `RemoteServiceManager`; `_p_channel_map = none` is the
empty `shared_ptr`. -/
structure RemoteServiceManager where
  _conf_file_path : String
  _p_channel_map : Option ChannelMap
deriving DecidableEq, Repr

/-- The file system as the loader sees it: what each path holds. -/
abbrev FileSystem := String → ConfFile

/-- The function `RemoteServiceManager::reload`: return value and manager afterwards. -/
def reload (Init : ChannelInit) (fs : FileSystem) (self : RemoteServiceManager) :
    Int × RemoteServiceManager :=
  match load_channel_map Init (fs self._conf_file_path) with
  | none => (-1, self)
  | some channel_map => (0, { self with _p_channel_map := some channel_map })

/-- The function `RemoteServiceManager::init`: return value and manager afterwards
(`none` for a null `path` or `conf`). -/
def init (Init : ChannelInit) (fs : FileSystem) (self : RemoteServiceManager)
    (path conf : Option String) : Int × RemoteServiceManager :=
  let file_path : String := path.getD ""
  let file_path : String :=
    if file_path ≠ "" ∧ file_path.back ≠ '/' then file_path.push '/' else file_path
  let file_path : String := file_path ++ conf.getD ""
  let self : RemoteServiceManager := { self with _conf_file_path := file_path }
  match load_channel_map Init (fs self._conf_file_path) with
  | none => (-1, self)
  | some channel_map => (0, { self with _p_channel_map := some channel_map })

/-- Decimal text of a C `int`, as `std::to_string` gives it. -/
def to_string (i : Int) : String :=
  if i < 0 then "-" ++ Nat.repr i.natAbs else Nat.repr i.natAbs

/-- The argument struct `RemoteServiceParam`. -/
structure RemoteServiceParam where
  url : String
  http_method : HttpMethod
  payload : String
deriving DecidableEq, Repr

/-- The result struct `RemoteServiceResult`. -/
structure RemoteServiceResult where
  result : String
deriving DecidableEq, Repr

/-- The three error branches of `call` itself, each of which writes one
`APP_LOG(ERROR)` line: the channel map is null (line 101), the service is not
found (line 106), the protocol of the entry is unknown (line 139). -/
inductive CallError where
  | channel_map_is_null : CallError
  | cannot_find_service (service_name : String) : CallError
  | unknown_protocol (protocol : String) : CallError
deriving DecidableEq, Repr

/-- Everything observable of one `call`: the return value, the caller's result
object afterwards, the entries passed to `add_notice_log`, the requests that
reached a transport, the error branch of `call` that was taken if any, and the
snapshot the call worked on as it is afterwards. -/
structure CallOutcome where
  ret : Int
  result : RemoteServiceResult
  notices : List (String × String)
  sent : List Sent
  error_branch : Option CallError
  channel_map : Option ChannelMap
deriving DecidableEq, Repr

/-- The function `RemoteServiceManager::call`. -/
def call (t : Transports) (self : RemoteServiceManager) (service_name : String)
    (params : RemoteServiceParam) (result : RemoteServiceResult) : CallOutcome :=
  match self._p_channel_map with
  | none =>
    { ret := -1, result := result, notices := [], sent := [],
      error_branch := some CallError.channel_map_is_null, channel_map := none }
  | some p_channel_map =>
    match ChannelMap.find p_channel_map service_name with
    | none =>
      { ret := -1, result := result, notices := [], sent := [],
        error_branch := some (CallError.cannot_find_service service_name),
        channel_map := some p_channel_map }
    | some _ =>
      let looked := ChannelMap.subscript p_channel_map service_name
      let service_channel := looked.1
      let out : HttpOutcome :=
        if service_channel.protocol = "http" then
          match service_channel.channel with
          | some channel =>
            call_http_by_BRPC_NAMESPACE t channel params.url params.http_method
              service_channel.headers params.payload result.result "" 0
          | none =>
            call_http_by_curl t params.url params.http_method service_channel.headers
              params.payload service_channel.timeout_ms service_channel.max_retry
              result.result "" 0
        else
          { ret := -1, result := result.result, remote_side := "", latency := 0, sent := [] }
      let log_str : String :=
        "remote:" ++ out.remote_side ++ "|tm:" ++ to_string out.latency
          ++ "|ret:" ++ to_string out.ret
      let log_key : String := "service_" ++ service_name
      { ret := out.ret
        result := { result := out.result }
        notices := [(log_key, log_str)]
        sent := out.sent
        error_branch :=
          if service_channel.protocol = "http" then none
          else some (CallError.unknown_protocol service_channel.protocol)
        channel_map := some looked.2 }

/-! ## Vocabulary of the specification and sample inputs -/

/-- The keys of a snapshot. -/
def ChannelMap.keys (m : ChannelMap) : List String := m.map Prod.fst

/-- A required string setting is missing or is not a JSON string. -/
def lacks_string (settings : List (String × Json)) (name : String) : Bool :=
  match FindMember settings name with
  | some (.str _) => false
  | _ => true

/-- A required integer setting is missing or is not a JSON integer. -/
def lacks_integer (settings : List (String × Json)) (name : String) : Bool :=
  match FindMember settings name with
  | some (.int _) => false
  | _ => true

/-- A service entry that §4.1 of the specification calls malformed: not an
object, or one of the five required settings missing or of the wrong type. -/
def malformed_entry : Json → Bool
  | .obj settings =>
    lacks_string settings "naming_service_url" || lacks_string settings "load_balancer_name"
      || lacks_string settings "protocol" || lacks_integer settings "timeout_ms"
      || lacks_integer settings "retry"
  | _ => true

/-- The outcome of the transport that `call` selects for an entry, with the
reference parameters `remote_side` and `latency` starting as `call` declares
them (empty and 0); no transport and return code -1 for an unknown protocol. -/
def dispatch (t : Transports) (service_channel : RemoteServiceChannel)
    (params : RemoteServiceParam) (result : RemoteServiceResult) : HttpOutcome :=
  if service_channel.protocol = "http" then
    match service_channel.channel with
    | some channel =>
      call_http_by_BRPC_NAMESPACE t channel params.url params.http_method
        service_channel.headers params.payload result.result "" 0
    | none =>
      call_http_by_curl t params.url params.http_method service_channel.headers
        params.payload service_channel.timeout_ms service_channel.max_retry
        result.result "" 0
  else
    { ret := -1, result := result.result, remote_side := "", latency := 0, sent := [] }

/-- A pooled transport whose `Init` always succeeds. -/
def initOk : ChannelInit := fun _ _ _ => 0

/-- The service entry of the scenario of §8 of the specification. -/
def echoSettings : Json :=
  .obj [("naming_service_url", .str "list://127.0.0.1:8000"), ("load_balancer_name", .str "rr"),
        ("protocol", .str "http"), ("timeout_ms", .int 100), ("retry", .int 0)]

/-- The configuration document of the scenario of §8. -/
def echoDocument : Json := .obj [("echo", echoSettings)]

/-- The pooled channel that `echoSettings` initialises. -/
def echoHandle : Channel :=
  { naming_service_url := "list://127.0.0.1:8000", load_balancer_name := "rr",
    options := { timeout_ms := 100, max_retry := 0 } }

/-- The entry that `echoSettings` loads to. -/
def echoChannel : RemoteServiceChannel :=
  { name := "echo", protocol := "http", channel := some echoHandle,
    timeout_ms := 100, max_retry := 0, headers := [] }

/-- The snapshot that `echoDocument` loads to. -/
def echoMap : ChannelMap := [("echo", echoChannel)]

/-- A manager that has published `echoMap`. -/
def echoManager : RemoteServiceManager :=
  { _conf_file_path := "conf/remote_services.json", _p_channel_map := some echoMap }

/-- A file system whose every path holds `echoDocument`. -/
def echoFiles : FileSystem := fun _ => .document echoDocument

/-- A file system whose every path holds a document with a malformed entry. -/
def brokenFiles : FileSystem := fun _ => .document (.obj [("echo", echoSettings), ("bad", .int 3)])

/-- Stub transports: the pooled call answers `pong` from `127.0.0.1:8000` after
5000 microseconds, curl answers `pong` from `127.0.0.1` after 5 milliseconds. -/
def pongTransports : Transports :=
  { CallMethod := fun _ _ =>
      { Failed := false, response_attachment := "pong", remote_side := "127.0.0.1:8000",
        latency_us := 5000 }
    curl_easy_init := true
    curl_easy_perform := fun _ =>
      { res := 0, response_buffer := "pong", total_time_ms := some 5,
        primary_ip := some "127.0.0.1" } }

/-- Stub transports for an unreachable server: the pooled call fails after 1200
microseconds without a peer, curl fails with `CURLE_COULDNT_CONNECT`. -/
def downTransports : Transports :=
  { CallMethod := fun _ _ =>
      { Failed := true, response_attachment := "", remote_side := "0.0.0.0:0",
        latency_us := 1200 }
    curl_easy_init := true
    curl_easy_perform := fun _ =>
      { res := 7, response_buffer := "", total_time_ms := none, primary_ip := none } }

/-- The request `GET /ping`. -/
def pingParam : RemoteServiceParam :=
  { url := "/ping", http_method := HttpMethod.HTTP_METHOD_GET, payload := "" }

/-- A header as one line of the curl header list. -/
def header_line (header : String × String) : String := header.1 ++ ": " ++ header.2

/-- The header name test of the pooled path (line 324). -/
def is_content_type (name : String) : Bool :=
  decide (name = "Content-Type") || decide (name = "content-type")

/-- The headers that the header loop of the pooled path passes to `SetHeader`,
that is, sends as generic headers. -/
def brpc_generic_headers (headers : List (String × String)) : List (String × String) :=
  (brpc_header_calls headers).filterMap fun c =>
    match c with
    | HeaderCall.SetHeader name value => some (name, value)
    | HeaderCall.set_content_type _ => none

/-- The call that the header loop of the pooled path makes for one header. -/
def brpc_header_call (header : String × String) : HeaderCall :=
  if is_content_type header.1 then HeaderCall.set_content_type header.2
  else HeaderCall.SetHeader header.1 header.2

/-- The (name, value) members of the `headers` object of a service entry, in
document order, each name and value read as a C string; empty when the entry
has no `headers` object. -/
def document_headers (value : Json) : List (String × String) :=
  match FindMember value.members "headers" with
  | some (.obj obj_headers) =>
    obj_headers.map fun member => (c_str member.1, member.2.GetString)
  | _ => []

/-- The first service entry of the document, in document order, whose name read
as a C string is `key`. -/
def FindService : List (String × Json) → String → Option Json
  | [], _ => none
  | (name, value) :: rest, key => if c_str name = key then some value else FindService rest key

/-- A service entry with three headers, two of them with the same name. -/
def headedSettings : Json :=
  .obj [("naming_service_url", .str "list://127.0.0.1:8000"), ("load_balancer_name", .str "rr"),
        ("protocol", .str "http"), ("client", .str "curl"), ("timeout_ms", .int 100),
        ("retry", .int 0),
        ("headers", .obj [("X-B", .str "2"), ("X-A", .str "1"), ("X-B", .str "3")])]

/-- The entry that `headedSettings` loads to. -/
def headedChannel : RemoteServiceChannel :=
  { name := "headed", protocol := "http", channel := none, timeout_ms := 100, max_retry := 0,
    headers := [("X-B", "2"), ("X-A", "1"), ("X-B", "3")] }

/-- A `curl` service entry with a negative `timeout_ms` and a negative `retry`. -/
def negativeSettings : Json :=
  .obj [("naming_service_url", .str "list://127.0.0.1:8000"), ("load_balancer_name", .str "rr"),
        ("protocol", .str "http"), ("client", .str "curl"), ("timeout_ms", .int (-1)),
        ("retry", .int (-3))]

/-- The entry that `negativeSettings` loads to. -/
def negativeChannel : RemoteServiceChannel :=
  { name := "slow", protocol := "http", channel := none, timeout_ms := -1, max_retry := -3,
    headers := [] }

/-- A service entry whose `protocol` is `https`. -/
def httpsSettings : Json :=
  .obj [("naming_service_url", .str "list://127.0.0.1:8000"), ("load_balancer_name", .str "rr"),
        ("protocol", .str "https"), ("timeout_ms", .int 100), ("retry", .int 0)]

/-- The checks of the loop body that do not depend on `client`: the three
required strings and the two required integers are there with the right type,
`protocol` is `http`, and the `headers` loop does not fail. -/
def valid_apart_from_client (settings : List (String × Json)) : Bool :=
  (string_member settings "naming_service_url").isSome
    && (string_member settings "load_balancer_name").isSome
    && decide (string_member settings "protocol" = some "http")
    && (int_member settings "timeout_ms").isSome
    && (int_member settings "retry").isSome
    && (headers_member settings).isSome

/-- The return code of the `Init` call that the loop body makes for a pooled
entry with these settings. -/
def init_code (Init : ChannelInit) (settings : List (String × Json)) : Int :=
  Init ((string_member settings "naming_service_url").getD "")
    ((string_member settings "load_balancer_name").getD "")
    { timeout_ms := (int_member settings "timeout_ms").getD 0
      max_retry := (int_member settings "retry").getD 0 }

/-- The settings of `echoSettings` followed by a `client` member. -/
def echoSettingsWithClient (client : Json) : Json :=
  .obj [("naming_service_url", .str "list://127.0.0.1:8000"), ("load_balancer_name", .str "rr"),
        ("protocol", .str "http"), ("timeout_ms", .int 100), ("retry", .int 0),
        ("client", client)]

/-- A pooled transport whose `Init` always fails. -/
def initFails : ChannelInit := fun _ _ _ => -1

/-- A `curl` service entry: the settings of `echoSettings` with `client` set. -/
def curlChannel : RemoteServiceChannel :=
  { name := "direct", protocol := "http", channel := none, timeout_ms := 100, max_retry := 0,
    headers := [] }

/-- The settings of an entry with every member of the given name removed. -/
def without_member (settings : List (String × Json)) (name : String) : List (String × Json) :=
  settings.filter fun member => decide (member.1 ≠ name)

/-- A header value of the entry's `headers` object is not a string. -/
def has_bad_header_value (value : Json) : Bool :=
  match FindMember value.members "headers" with
  | some (.obj obj_headers) => obj_headers.any fun header => !header.2.IsString
  | _ => false

/-- The settings of `echoSettings` followed by a `headers` member. -/
def echoSettingsWithHeaders (headers : Json) : Json :=
  .obj [("naming_service_url", .str "list://127.0.0.1:8000"), ("load_balancer_name", .str "rr"),
        ("protocol", .str "http"), ("timeout_ms", .int 100), ("retry", .int 0),
        ("headers", headers)]

/-- A `curl` service entry without `naming_service_url`. -/
def curlSettingsNoUrl : Json :=
  .obj [("load_balancer_name", .str "rr"), ("protocol", .str "http"), ("client", .str "curl"),
        ("timeout_ms", .int 100), ("retry", .int 0)]

/-- A `curl` service entry without `load_balancer_name`. -/
def curlSettingsNoBalancer : Json :=
  .obj [("naming_service_url", .str "list://127.0.0.1:8000"), ("protocol", .str "http"),
        ("client", .str "curl"), ("timeout_ms", .int 100), ("retry", .int 0)]

/-- A `curl` service entry without `naming_service_url` and `load_balancer_name`. -/
def curlSettingsNeither : Json :=
  .obj [("protocol", .str "http"), ("client", .str "curl"), ("timeout_ms", .int 100),
        ("retry", .int 0)]

/-- A `curl` service entry whose `naming_service_url` and `load_balancer_name`
are empty strings. -/
def curlSettingsEmpty : Json :=
  .obj [("naming_service_url", .str ""), ("load_balancer_name", .str ""),
        ("protocol", .str "http"), ("client", .str "curl"), ("timeout_ms", .int 100),
        ("retry", .int 0)]

/-- The manager after a sequence of `reload` invocations, the oldest first; each
runs against what `Init` answers and what the files hold at that moment. -/
def run_reloads : List (ChannelInit × FileSystem) → RemoteServiceManager → RemoteServiceManager
  | [], self => self
  | env :: rest, self => run_reloads rest (reload env.1 env.2 self).2

/-- The snapshot built by the most recent successful load: the newest of the
reloads (listed oldest first) whose load of `path` succeeds, and `first`, the
snapshot of the initial load, when none does. -/
def latest_loaded (path : String) (envs : List (ChannelInit × FileSystem))
    (first : ChannelMap) : ChannelMap :=
  (envs.reverse.findSome? fun env => load_channel_map env.1 (env.2 path)).getD first

/-- A file system whose every path holds a document with one `curl` service. -/
def directFiles : FileSystem :=
  fun _ => .document (.obj [("direct", echoSettingsWithClient (.str "curl"))])

/-- A manager before `init`. -/
def freshManager : RemoteServiceManager := { _conf_file_path := "", _p_channel_map := none }

/-- Stub pooled transport whose controller reports a failed call with the given
`latency_us`, from `10.0.0.1:80`. -/
def failedAfter (latency_us : Int) : Transports :=
  { CallMethod := fun _ _ =>
      { Failed := true, response_attachment := "", remote_side := "10.0.0.1:80",
        latency_us := latency_us }
    curl_easy_init := true
    curl_easy_perform := fun _ =>
      { res := 7, response_buffer := "", total_time_ms := none, primary_ip := none } }

/-- A document that names the service `echo` twice: first as a pooled service,
then as a `curl` service with a header. -/
def twiceDocument : Json :=
  .obj [("echo", echoSettings),
        ("echo", .obj [("naming_service_url", .str "list://10.0.0.9:80"),
                       ("load_balancer_name", .str "random"), ("protocol", .str "http"),
                       ("client", .str "curl"), ("timeout_ms", .int 7), ("retry", .int 3),
                       ("headers", .obj [("X-A", .str "1")])])]

/-- A `curl` service entry whose one header has a NUL character in its name and
in its value. -/
def nulHeadedSettings : Json :=
  .obj [("naming_service_url", .str "list://127.0.0.1:8000"), ("load_balancer_name", .str "rr"),
        ("protocol", .str "http"), ("client", .str "curl"), ("timeout_ms", .int 100),
        ("retry", .int 0), ("headers", .obj [("X-A\x00B", .str "1\x00z")])]

/-- The entry that `nulHeadedSettings` loads to. -/
def nulHeadedChannel : RemoteServiceChannel :=
  { name := "headed", protocol := "http", channel := none, timeout_ms := 100, max_retry := 0,
    headers := [("X-A", "1")] }

/-- The settings of `echoSettings` with the given `protocol` string. -/
def echoSettingsWithProtocol (protocol : String) : Json :=
  .obj [("naming_service_url", .str "list://127.0.0.1:8000"), ("load_balancer_name", .str "rr"),
        ("protocol", .str protocol), ("timeout_ms", .int 100), ("retry", .int 0)]

/-- The entry that the settings of `echoSettings` with `client` = `curl` load to
under the name `echo`. -/
def echoCurlChannel : RemoteServiceChannel :=
  { name := "echo", protocol := "http", channel := none, timeout_ms := 100, max_retry := 0,
    headers := [] }

/-- A document with three service entries: one named `echo`, NUL, `old`, which is
a `curl` service, and two named `echo`. -/
def nulTwiceDocument : Json :=
  .obj [("echo\x00old", echoSettingsWithClient (.str "curl")), ("echo", echoSettings),
        ("echo", headedSettings)]

/-! ## Lemmas about the loader -/

theorem load_service_not_object {Init : ChannelInit} {service_name : String} {value : Json}
    (h : value.IsObject = false) : load_service Init service_name value = none := by
  simp [load_service, h]

/-- Inversion of one pass of the loop body: every check passed. -/
theorem load_service_eq_some {Init : ChannelInit} {service_name : String} {value : Json}
    {ch : RemoteServiceChannel} (h : load_service Init service_name value = some ch) :
    value.IsObject = true ∧
    ∃ naming_service_url load_balancer_name protocol timeout_ms retry headers,
      string_member value.members "naming_service_url" = some naming_service_url ∧
      string_member value.members "load_balancer_name" = some load_balancer_name ∧
      string_member value.members "protocol" = some protocol ∧
      int_member value.members "timeout_ms" = some timeout_ms ∧
      int_member value.members "retry" = some retry ∧
      headers_member value.members = some headers ∧
      make_service_channel Init service_name naming_service_url load_balancer_name protocol
        (client_member value.members) timeout_ms retry headers = some ch := by
  cases hobj : value.IsObject with
  | false => simp [load_service, hobj] at h
  | true =>
    refine ⟨rfl, ?_⟩
    cases h1 : string_member value.members "naming_service_url" with
    | none => simp [load_service, hobj, h1] at h
    | some a =>
    cases h2 : string_member value.members "load_balancer_name" with
    | none => simp [load_service, hobj, h1, h2] at h
    | some b =>
    cases h3 : string_member value.members "protocol" with
    | none => simp [load_service, hobj, h1, h2, h3] at h
    | some c =>
    cases h4 : int_member value.members "timeout_ms" with
    | none => simp [load_service, hobj, h1, h2, h3, h4] at h
    | some d =>
    cases h5 : int_member value.members "retry" with
    | none => simp [load_service, hobj, h1, h2, h3, h4, h5] at h
    | some e =>
    cases h6 : headers_member value.members with
    | none => simp [load_service, hobj, h1, h2, h3, h4, h5, h6] at h
    | some f =>
      simp only [load_service, hobj, h1, h2, h3, h4, h5, h6] at h
      exact ⟨a, b, c, d, e, f, rfl, rfl, rfl, rfl, rfl, rfl, by simpa using h⟩

/-- The service name only ends up in the `name` field: the loop body run under
another name gives the same entry under that name. -/
theorem load_service_rename (Init : ChannelInit) (name1 name2 : String) (value : Json) :
    load_service Init name1 value =
      (load_service Init name2 value).map fun ch => { ch with name := name1 } := by
  cases hobj : value.IsObject with
  | false => simp [load_service, hobj]
  | true =>
    cases h1 : string_member value.members "naming_service_url" with
    | none => simp [load_service, hobj, h1]
    | some a =>
    cases h2 : string_member value.members "load_balancer_name" with
    | none => simp [load_service, hobj, h1, h2]
    | some b =>
    cases h3 : string_member value.members "protocol" with
    | none => simp [load_service, hobj, h1, h2, h3]
    | some c =>
    cases h4 : int_member value.members "timeout_ms" with
    | none => simp [load_service, hobj, h1, h2, h3, h4]
    | some d =>
    cases h5 : int_member value.members "retry" with
    | none => simp [load_service, hobj, h1, h2, h3, h4, h5]
    | some e =>
    cases h6 : headers_member value.members with
    | none => simp [load_service, hobj, h1, h2, h3, h4, h5, h6]
    | some f =>
      simp only [load_service, hobj, h1, h2, h3, h4, h5, h6, make_service_channel]
      split_ifs <;> simp

theorem load_service_eq_none_rename {Init : ChannelInit} {name1 : String} (name2 : String)
    {value : Json} (h : load_service Init name1 value = none) :
    load_service Init name2 value = none := by
  rw [load_service_rename Init name2 name1 value, h]
  rfl

/-- The loop fails as soon as one pass of its body fails. -/
theorem load_services_eq_none_of_mem {Init : ChannelInit} :
    ∀ (members : List (String × Json)) (channel_map : ChannelMap) (e : String × Json),
      e ∈ members → load_service Init e.1 e.2 = none →
      load_services Init members channel_map = none
  | [], _, _, hmem, _ => absurd hmem (List.not_mem_nil _)
  | (name, value) :: rest, channel_map, e, hmem, hnone => by
    unfold load_services
    rcases List.mem_cons.mp hmem with rfl | hrest
    · simp [load_service_eq_none_rename (c_str name) hnone]
    · cases hhead : load_service Init (c_str name) value with
      | none => rfl
      | some ch =>
        exact load_services_eq_none_of_mem rest _ e hrest hnone

/-! ## Lemmas about the channel table -/

theorem ChannelMap.find_eq_none_iff (m : ChannelMap) (key : String) :
    ChannelMap.find m key = none ↔ key ∉ ChannelMap.keys m := by
  induction m with
  | nil => simp [ChannelMap.find, ChannelMap.keys]
  | cons head rest ih =>
    obtain ⟨k, v⟩ := head
    by_cases hk : k = key
    · simp [ChannelMap.find, ChannelMap.keys, hk]
    · have hk2 : ¬ key = k := fun h => hk h.symm
      simp only [ChannelMap.keys] at ih
      simp [ChannelMap.find, ChannelMap.keys, hk, hk2, ih]

theorem ChannelMap.mem_of_find {m : ChannelMap} {key : String} {ch : RemoteServiceChannel}
    (h : ChannelMap.find m key = some ch) : (key, ch) ∈ m := by
  induction m with
  | nil => simp [ChannelMap.find] at h
  | cons head rest ih =>
    obtain ⟨k, v⟩ := head
    by_cases hk : k = key
    · simp [ChannelMap.find, hk] at h
      simp [hk, h]
    · simp only [ChannelMap.find, hk, if_false] at h
      exact List.mem_cons_of_mem _ (ih h)

theorem ChannelMap.subscript_of_find {m : ChannelMap} {key : String}
    {ch : RemoteServiceChannel} (h : ChannelMap.find m key = some ch) :
    ChannelMap.subscript m key = (ch, m) := by
  simp [ChannelMap.subscript, h]

/-! ## Lemmas about `call` -/

/-- The whole outcome of `call` on a service that the published snapshot holds. -/
theorem call_of_find {t : Transports} {self : RemoteServiceManager} {channel_map : ChannelMap}
    {service_name : String} {service_channel : RemoteServiceChannel}
    (params : RemoteServiceParam) (result : RemoteServiceResult)
    (hpublished : self._p_channel_map = some channel_map)
    (hfind : ChannelMap.find channel_map service_name = some service_channel) :
    call t self service_name params result =
      { ret := (dispatch t service_channel params result).ret
        result := { result := (dispatch t service_channel params result).result }
        notices := [("service_" ++ service_name,
          "remote:" ++ (dispatch t service_channel params result).remote_side ++ "|tm:"
            ++ to_string (dispatch t service_channel params result).latency ++ "|ret:"
            ++ to_string (dispatch t service_channel params result).ret)]
        sent := (dispatch t service_channel params result).sent
        error_branch :=
          if service_channel.protocol = "http" then none
          else some (CallError.unknown_protocol service_channel.protocol)
        channel_map := some channel_map } := by
  simp only [call, hpublished, hfind, ChannelMap.subscript_of_find hfind, dispatch]

/-! ## Lemmas about the transports -/

/-- A failed curl call returns -1 and leaves its reference parameters alone. -/
theorem call_http_by_curl_failed {t : Transports} {url : String} {method : HttpMethod}
    {headers : List (String × String)} {payload : String} {timeout_ms max_retry : Int}
    {result remote_side : String} {latency : Int}
    (h : (call_http_by_curl t url method headers payload timeout_ms max_retry result
      remote_side latency).ret ≠ 0) :
    (call_http_by_curl t url method headers payload timeout_ms max_retry result
      remote_side latency).ret = -1 ∧
    (call_http_by_curl t url method headers payload timeout_ms max_retry result
      remote_side latency).result = result ∧
    (call_http_by_curl t url method headers payload timeout_ms max_retry result
      remote_side latency).remote_side = remote_side ∧
    (call_http_by_curl t url method headers payload timeout_ms max_retry result
      remote_side latency).latency = latency := by
  unfold call_http_by_curl at h ⊢
  by_cases hinit : t.curl_easy_init = true
  · by_cases hres : (t.curl_easy_perform
        { url := url, post := if method = HttpMethod.HTTP_METHOD_POST then some payload else none,
          httpheader := curl_header_lines headers, timeout_ms := timeout_ms }).res = 0
    · simp [hinit, hres] at h
    · simp [hinit, hres]
  · simp [hinit]

theorem notice_value_of_failure :
    "remote:" ++ "" ++ "|tm:" ++ to_string 0 ++ "|ret:" ++ to_string (-1)
      = "remote:|tm:0|ret:-1" := by decide

/-! ## Lemmas about the header loops -/

theorem brpc_header_calls_eq_map (headers : List (String × String)) :
    brpc_header_calls headers = headers.map brpc_header_call := by
  induction headers with
  | nil => rfl
  | cons header rest ih =>
    by_cases h : header.1 = "Content-Type" ∨ header.1 = "content-type"
    · have hb : is_content_type header.1 = true := by
        simpa [is_content_type] using h
      simp [brpc_header_calls, brpc_header_call, h, hb, ih]
    · have hb : is_content_type header.1 = false := by
        simpa [is_content_type] using h
      simp [brpc_header_calls, brpc_header_call, h, hb, ih]

theorem brpc_generic_headers_eq_filter (headers : List (String × String)) :
    brpc_generic_headers headers = headers.filter fun header => !is_content_type header.1 := by
  unfold brpc_generic_headers
  rw [brpc_header_calls_eq_map]
  induction headers with
  | nil => rfl
  | cons header rest ih =>
    cases hb : is_content_type header.1 <;>
      simp [brpc_header_call, hb, List.filterMap_cons, List.filter_cons, ih]

theorem curl_header_lines_eq_map (headers : List (String × String)) :
    curl_header_lines headers = headers.map header_line := by
  induction headers with
  | nil => rfl
  | cons header rest ih => simp [curl_header_lines, header_line, ih]

/-! ## Lemmas about the service loop -/

theorem ChannelMap.find_append_single (m : ChannelMap) (key : String)
    (value : RemoteServiceChannel) (k : String) :
    ChannelMap.find (m ++ [(key, value)]) k =
      match ChannelMap.find m k with
      | some x => some x
      | none => if key = k then some value else none := by
  induction m with
  | nil => simp [ChannelMap.find]
  | cons head rest ih =>
    obtain ⟨k0, v0⟩ := head
    by_cases hk : k0 = k
    · simp [ChannelMap.find, hk]
    · simp only [List.cons_append, ChannelMap.find, hk, if_false]
      exact ih

theorem ChannelMap.find_insert (m : ChannelMap) (key : String) (value : RemoteServiceChannel)
    (k : String) :
    ChannelMap.find (ChannelMap.insert m key value) k =
      match ChannelMap.find m k with
      | some x => some x
      | none => if key = k then some value else none := by
  unfold ChannelMap.insert
  cases hkey : ChannelMap.find m key with
  | none => simp only [ChannelMap.find_append_single]
  | some old =>
    simp only
    cases hk : ChannelMap.find m k with
    | some x => rfl
    | none =>
      have hne : ¬ key = k := by
        intro h
        rw [h, hk] at hkey
        cases hkey
      simp [hne]

theorem ChannelMap.mem_insert {m : ChannelMap} {key : String} {value : RemoteServiceChannel}
    {entry : String × RemoteServiceChannel} (h : entry ∈ ChannelMap.insert m key value) :
    entry ∈ m ∨ entry = (key, value) := by
  unfold ChannelMap.insert at h
  cases hkey : ChannelMap.find m key with
  | none =>
    rw [hkey] at h
    simpa using h
  | some old =>
    rw [hkey] at h
    exact Or.inl h

/-- What the finished loop holds for a name: the entry that was there before,
else what the loop body made of the first member whose name reads as that name. -/
theorem load_services_find {Init : ChannelInit} :
    ∀ (members : List (String × Json)) (channel_map loaded : ChannelMap),
      load_services Init members channel_map = some loaded →
      ∀ k, ChannelMap.find loaded k =
        match ChannelMap.find channel_map k with
        | some x => some x
        | none => (FindService members k).bind (load_service Init k)
  | [], channel_map, loaded, h, k => by
    simp only [load_services, Option.some.injEq] at h
    subst h
    cases ChannelMap.find channel_map k <;> simp [FindService]
  | (name, value) :: rest, channel_map, loaded, h, k => by
    unfold load_services at h
    cases hhead : load_service Init (c_str name) value with
    | none => simp [hhead] at h
    | some ch =>
      simp only [hhead] at h
      rw [load_services_find rest _ loaded h k, ChannelMap.find_insert]
      cases hk : ChannelMap.find channel_map k with
      | some x => rfl
      | none =>
        by_cases hname : c_str name = k
        · subst hname
          simp [FindService, hhead]
        · simp [FindService, hname]

/-- Every entry of the finished loop was there before or was made by the loop
body from a member of the document whose name reads as the entry's key. -/
theorem load_services_mem {Init : ChannelInit} :
    ∀ (members : List (String × Json)) (channel_map loaded : ChannelMap),
      load_services Init members channel_map = some loaded →
      ∀ entry ∈ loaded, entry ∈ channel_map ∨
        ∃ name value, (name, value) ∈ members ∧ c_str name = entry.1 ∧
          load_service Init entry.1 value = some entry.2
  | [], channel_map, loaded, h, entry, hmem => by
    simp only [load_services, Option.some.injEq] at h
    subst h
    exact Or.inl hmem
  | (name, value) :: rest, channel_map, loaded, h, entry, hmem => by
    unfold load_services at h
    cases hhead : load_service Init (c_str name) value with
    | none => simp [hhead] at h
    | some ch =>
      simp only [hhead] at h
      rcases load_services_mem rest _ loaded h entry hmem with hin | ⟨n, v, hv, hn, hload⟩
      · rcases ChannelMap.mem_insert hin with hold | hnew
        · exact Or.inl hold
        · subst hnew
          exact Or.inr ⟨name, value, List.mem_cons_self _ _, rfl, hhead⟩
      · exact Or.inr ⟨n, v, List.mem_cons_of_mem _ hv, hn, hload⟩

/-- Inversion of `load_channel_map`: the document is an object and the loop ran
over its members from an empty table. -/
theorem load_channel_map_eq_some {Init : ChannelInit} {file : ConfFile} {loaded : ChannelMap}
    (h : load_channel_map Init file = some loaded) :
    ∃ doc, file = ConfFile.document doc ∧ doc.IsObject = true ∧
      load_services Init doc.members [] = some loaded := by
  cases file with
  | unreadable => simp [load_channel_map] at h
  | parseError => simp [load_channel_map] at h
  | document doc =>
    cases hobj : doc.IsObject with
    | false => simp [load_channel_map, hobj] at h
    | true =>
      refine ⟨doc, rfl, hobj, ?_⟩
      simpa [load_channel_map, hobj] using h

/-! ## Lemmas about the loop body -/

theorem load_headers_eq_some :
    ∀ (members : List (String × Json)) (acc headers : List (String × String)),
      load_headers members acc = some headers →
      headers = acc ++ members.map fun member => (c_str member.1, member.2.GetString)
  | [], acc, headers, h => by
    simp only [load_headers, Option.some.injEq] at h
    simp [h]
  | (header_key, value) :: rest, acc, headers, h => by
    unfold load_headers at h
    cases hs : value.IsString with
    | false => simp [hs] at h
    | true =>
      simp only [hs, not_true_eq_false, if_false] at h
      rw [load_headers_eq_some rest _ headers h]
      simp

theorem headers_member_eq_some {value : Json} {headers : List (String × String)}
    (h : headers_member value.members = some headers) : headers = document_headers value := by
  unfold headers_member at h
  unfold document_headers
  cases hf : FindMember value.members "headers" with
  | none =>
    rw [hf] at h
    simpa using h.symm
  | some v =>
    rw [hf] at h
    cases v with
    | obj obj_headers =>
      simp only [Json.IsObject, if_true, Json.members] at h
      simpa using load_headers_eq_some obj_headers [] headers h
    | null => simpa [Json.IsObject] using h.symm
    | bool b => simpa [Json.IsObject] using h.symm
    | int i => simpa [Json.IsObject] using h.symm
    | real r => simpa [Json.IsObject] using h.symm
    | str s => simpa [Json.IsObject] using h.symm
    | arr items => simpa [Json.IsObject] using h.symm

/-- Inversion of the tail of the loop body. -/
theorem make_service_channel_eq_some {Init : ChannelInit} {service_name naming_service_url
    load_balancer_name protocol client : String} {timeout_ms retry : Int}
    {headers : List (String × String)} {ch : RemoteServiceChannel}
    (h : make_service_channel Init service_name naming_service_url load_balancer_name protocol
      client timeout_ms retry headers = some ch) :
    protocol = "http" ∧ ch.name = service_name ∧ ch.protocol = "http" ∧
    ch.timeout_ms = timeout_ms ∧ ch.max_retry = retry ∧ ch.headers = headers ∧
    (((client = "" ∨ client = "brpc") ∧
        Init naming_service_url load_balancer_name
          { timeout_ms := timeout_ms, max_retry := retry } = 0 ∧
        ch.channel = some { naming_service_url := naming_service_url,
                            load_balancer_name := load_balancer_name,
                            options := { timeout_ms := timeout_ms, max_retry := retry } }) ∨
      (client = "curl" ∧ ch.channel = none)) := by
  unfold make_service_channel at h
  by_cases hp : protocol = "http"
  · simp only [hp, if_true] at h
    by_cases hc : client = "" ∨ client = "brpc"
    · simp only [hc, if_true] at h
      by_cases hi : Init naming_service_url load_balancer_name
          { timeout_ms := timeout_ms, max_retry := retry } = 0
      · simp only [hi, ne_eq, not_true_eq_false, if_false, Option.some.injEq] at h
        subst h
        exact ⟨hp, rfl, rfl, rfl, rfl, rfl, Or.inl ⟨hc, hi, rfl⟩⟩
      · simp [hi] at h
    · simp only [hc, if_false] at h
      by_cases hcurl : client = "curl"
      · simp only [hcurl, if_true, Option.some.injEq] at h
        subst h
        exact ⟨hp, rfl, rfl, rfl, rfl, rfl, Or.inr ⟨hcurl, rfl⟩⟩
      · simp [hcurl] at h
  · simp [hp] at h

/-! ## Lemmas about a loaded snapshot -/

theorem FindMember_mem {members : List (String × Json)} {name : String} {value : Json}
    (h : FindMember members name = some value) : (name, value) ∈ members := by
  induction members with
  | nil => simp [FindMember] at h
  | cons head rest ih =>
    obtain ⟨k, v⟩ := head
    by_cases hk : k = name
    · simp [FindMember, hk] at h
      simp [hk, h]
    · simp only [FindMember, hk, if_false] at h
      exact List.mem_cons_of_mem _ (ih h)

theorem FindService_mem {members : List (String × Json)} {key : String} {value : Json}
    (h : FindService members key = some value) :
    ∃ name, (name, value) ∈ members ∧ c_str name = key := by
  induction members with
  | nil => simp [FindService] at h
  | cons head rest ih =>
    obtain ⟨k, v⟩ := head
    by_cases hk : c_str k = key
    · simp only [FindService, hk, if_true, Option.some.injEq] at h
      exact ⟨k, by simp [h], hk⟩
    · simp only [FindService, hk, if_false] at h
      obtain ⟨name, hmem, hname⟩ := ih h
      exact ⟨name, List.mem_cons_of_mem _ hmem, hname⟩

/-- A loaded snapshot holds, for each name as the loader reads it, what the
loop body made of the first member whose name reads so. -/
theorem load_channel_map_find {Init : ChannelInit} {doc : Json} {loaded : ChannelMap}
    {service_name : String} {value : Json}
    (hload : load_channel_map Init (ConfFile.document doc) = some loaded)
    (hentry : FindService doc.members service_name = some value) :
    ∃ service_channel, load_service Init service_name value = some service_channel ∧
      ChannelMap.find loaded service_name = some service_channel := by
  obtain ⟨doc2, hdoc, -, hloop⟩ := load_channel_map_eq_some hload
  cases hdoc
  have hfind := load_services_find doc.members [] loaded hloop service_name
  simp only [ChannelMap.find, hentry, Option.some_bind] at hfind
  cases hbody : load_service Init service_name value with
  | none =>
    obtain ⟨name, hmem, -⟩ := FindService_mem hentry
    have hnone := load_services_eq_none_of_mem doc.members [] (name, value) hmem
      (load_service_eq_none_rename name hbody)
    rw [hnone] at hloop
    cases hloop
  | some service_channel =>
    exact ⟨service_channel, rfl, by rw [hfind, hbody]⟩

/-- Every entry of a loaded snapshot was made by the loop body from a member of
the document whose name reads as the entry's key. -/
theorem load_channel_map_mem {Init : ChannelInit} {file : ConfFile} {loaded : ChannelMap}
    {entry : String × RemoteServiceChannel}
    (hload : load_channel_map Init file = some loaded) (hmem : entry ∈ loaded) :
    ∃ doc name value, file = ConfFile.document doc ∧ (name, value) ∈ doc.members ∧
      c_str name = entry.1 ∧ load_service Init entry.1 value = some entry.2 := by
  obtain ⟨doc, hdoc, -, hloop⟩ := load_channel_map_eq_some hload
  rcases load_services_mem doc.members [] loaded hloop entry hmem with
    hnil | ⟨name, value, hv, hname, hbody⟩
  · cases hnil
  · exact ⟨doc, name, value, hdoc, hv, hname, hbody⟩

theorem call_http_by_BRPC_NAMESPACE_sent (t : Transports) (channel : Channel) (url : String)
    (method : HttpMethod) (headers : List (String × String)) (payload : String)
    (result remote_side : String) (latency : Int) :
    (call_http_by_BRPC_NAMESPACE t channel url method headers payload result remote_side
      latency).sent =
      [Sent.brpc channel
        { uri := url, method := method,
          request_attachment := if method = HttpMethod.HTTP_METHOD_POST then payload else "",
          header_calls := brpc_header_calls headers }] := by
  cases hfailed : (t.CallMethod channel
      { uri := url, method := method,
        request_attachment := if method = HttpMethod.HTTP_METHOD_POST then payload else "",
        header_calls := brpc_header_calls headers }).Failed <;>
    simp [call_http_by_BRPC_NAMESPACE, hfailed]

theorem call_http_by_curl_sent (t : Transports) (url : String) (method : HttpMethod)
    (headers : List (String × String)) (payload : String) (timeout_ms max_retry : Int)
    (result remote_side : String) (latency : Int) :
    (call_http_by_curl t url method headers payload timeout_ms max_retry result remote_side
      latency).sent =
      if t.curl_easy_init then
        [Sent.curl
          { url := url,
            post := if method = HttpMethod.HTTP_METHOD_POST then some payload else none,
            httpheader := curl_header_lines headers, timeout_ms := timeout_ms }]
      else [] := by
  unfold call_http_by_curl
  by_cases hinit : t.curl_easy_init = true
  · by_cases hres : (t.curl_easy_perform
        { url := url, post := if method = HttpMethod.HTTP_METHOD_POST then some payload else none,
          httpheader := curl_header_lines headers, timeout_ms := timeout_ms }).res = 0
    · simp [hinit, hres]
    · simp [hinit, hres]
  · simp [hinit]

/-- The requests of `call` on an entry carry the entry's headers, as the curl
header list or as the calls of the pooled header loop. -/
theorem dispatch_sent_headers (t : Transports) (service_channel : RemoteServiceChannel)
    (params : RemoteServiceParam) (result : RemoteServiceResult) :
    ∀ s ∈ (dispatch t service_channel params result).sent,
      (∀ request, s = Sent.curl request →
        request.httpheader = curl_header_lines service_channel.headers) ∧
      (∀ channel cntl, s = Sent.brpc channel cntl →
        cntl.header_calls = brpc_header_calls service_channel.headers) := by
  intro s hs
  unfold dispatch at hs
  by_cases hp : service_channel.protocol = "http"
  · simp only [hp, if_true] at hs
    cases hc : service_channel.channel with
    | some channel =>
      simp only [hc, call_http_by_BRPC_NAMESPACE_sent, List.mem_singleton] at hs
      subst hs
      constructor
      · intro request h; cases h
      · intro channel2 cntl h
        cases h
        rfl
    | none =>
      simp only [hc, call_http_by_curl_sent] at hs
      by_cases hinit : t.curl_easy_init = true
      · simp only [hinit, if_true, List.mem_singleton] at hs
        subst hs
        constructor
        · intro request h
          cases h
          rfl
        · intro channel cntl h; cases h
      · simp [hinit] at hs
  · simp [hp] at hs

theorem int_member_eq_some {settings : List (String × Json)} {name : String} {i : Int}
    (h : int_member settings name = some i) :
    FindMember settings name = some (Json.int i) ∧ -2147483648 ≤ i ∧ i ≤ 2147483647 := by
  unfold int_member at h
  cases hf : FindMember settings name with
  | none => simp [hf] at h
  | some v =>
    rw [hf] at h
    cases v with
    | int j =>
      by_cases hr : (Json.int j).IsInt = true
      · simp only [hr, not_true_eq_false, if_false, Json.GetInt, Option.some.injEq] at h
        subst h
        simp only [Json.IsInt, Bool.and_eq_true, decide_eq_true_eq] at hr
        exact ⟨rfl, hr.1, hr.2⟩
      · simp [hr] at h
    | null => simp [Json.IsInt] at h
    | bool b => simp [Json.IsInt] at h
    | real r => simp [Json.IsInt] at h
    | str s => simp [Json.IsInt] at h
    | arr items => simp [Json.IsInt] at h
    | obj ms => simp [Json.IsInt] at h

theorem string_member_eq_some {settings : List (String × Json)} {name : String} {s : String}
    (h : string_member settings name = some s) :
    ∃ text, FindMember settings name = some (Json.str text) ∧ c_str text = s := by
  unfold string_member at h
  cases hf : FindMember settings name with
  | none => simp [hf] at h
  | some v =>
    rw [hf] at h
    cases v with
    | str s2 =>
      simp only [Json.IsString, not_true_eq_false, if_false, Json.GetString,
        Option.some.injEq] at h
      exact ⟨s2, rfl, h⟩
    | null => simp [Json.IsString] at h
    | bool b => simp [Json.IsString] at h
    | real r => simp [Json.IsString] at h
    | int i => simp [Json.IsString] at h
    | arr items => simp [Json.IsString] at h
    | obj ms => simp [Json.IsString] at h

/-! ## The claims -/

theorem string_member_of_lacks {settings : List (String × Json)} {name : String}
    (h : lacks_string settings name = true) : string_member settings name = none := by
  unfold lacks_string at h
  unfold string_member
  cases hf : FindMember settings name with
  | none => rfl
  | some v =>
    cases v <;> simp_all [Json.IsString]

theorem int_member_of_lacks {settings : List (String × Json)} {name : String}
    (h : lacks_integer settings name = true) : int_member settings name = none := by
  unfold lacks_integer at h
  unfold int_member
  cases hf : FindMember settings name with
  | none => rfl
  | some v =>
    cases v <;> simp_all [Json.IsInt]

theorem load_service_malformed {Init : ChannelInit} {service_name : String} {value : Json}
    (h : malformed_entry value = true) : load_service Init service_name value = none := by
  cases hl : load_service Init service_name value with
  | none => rfl
  | some ch =>
    exfalso
    obtain ⟨hobj, a, b, c, d, e, f, h1, h2, h3, h4, h5, -, -⟩ := load_service_eq_some hl
    cases value <;> simp [Json.IsObject] at hobj
    rename_i settings
    simp only [malformed_entry, Bool.or_eq_true] at h
    simp only [Json.members] at h1 h2 h3 h4 h5
    rcases h with (((h | h) | h) | h) | h
    · rw [string_member_of_lacks h] at h1; cases h1
    · rw [string_member_of_lacks h] at h2; cases h2
    · rw [string_member_of_lacks h] at h3; cases h3
    · rw [int_member_of_lacks h] at h4; cases h4
    · rw [int_member_of_lacks h] at h5; cases h5

/-- C1: when the top level of the document is an object and one of its service
entries is malformed (not an object, or a required setting missing or of the
wrong JSON type), `load_channel_map` returns null, whatever the other entries
are and wherever the malformed entry sits. -/
theorem load_channel_map_malformed_entry (Init : ChannelInit)
    (members : List (String × Json)) (entry : String × Json)
    (hmem : entry ∈ members) (hbad : malformed_entry entry.2 = true) :
    load_channel_map Init (.document (.obj members)) = none := by
  simp only [load_channel_map, Json.IsObject, Json.members, not_true_eq_false, if_false]
  exact load_services_eq_none_of_mem members [] entry hmem (load_service_malformed hbad)

/-- Witness of C1: a valid entry followed by one whose `retry` is a string. -/
theorem load_channel_map_malformed_entry_witness :
    load_channel_map initOk (.document (.obj
      [("echo", echoSettings),
       ("late", .obj [("naming_service_url", .str "list://10.0.0.1:80"),
                      ("load_balancer_name", .str "rr"), ("protocol", .str "http"),
                      ("timeout_ms", .int 100), ("retry", .str "0")])])) = none :=
  load_channel_map_malformed_entry initOk _
    ("late", .obj [("naming_service_url", .str "list://10.0.0.1:80"),
                   ("load_balancer_name", .str "rr"), ("protocol", .str "http"),
                   ("timeout_ms", .int 100), ("retry", .str "0")])
    (by simp) (by decide)

/-- C2: when `load_channel_map` fails during `reload`, `reload` returns -1 and the
manager, in particular the published snapshot, is exactly what it was before the
call; when it succeeds, `reload` returns 0 and the published snapshot is the
newly built one. -/
theorem reload_keeps_or_publishes (Init : ChannelInit) (fs : FileSystem)
    (self : RemoteServiceManager) :
    (load_channel_map Init (fs self._conf_file_path) = none →
      (reload Init fs self).1 = -1 ∧
      (reload Init fs self).2._p_channel_map = self._p_channel_map ∧
      (reload Init fs self).2 = self) ∧
    (∀ channel_map, load_channel_map Init (fs self._conf_file_path) = some channel_map →
      (reload Init fs self).1 = 0 ∧
      (reload Init fs self).2._p_channel_map = some channel_map ∧
      (reload Init fs self).2._conf_file_path = self._conf_file_path) := by
  constructor
  · intro h
    simp [reload, h]
  · intro channel_map h
    simp [reload, h]

/-- Both branches of C2 at concrete inputs: a reload from a malformed document
keeps `echoMap`, a reload from `echoDocument` over an empty snapshot publishes
`echoMap`. -/
theorem reload_keeps_or_publishes_witness :
    ((reload initOk brokenFiles echoManager).1 = -1 ∧
      (reload initOk brokenFiles echoManager).2._p_channel_map = some echoMap) ∧
    ((reload initOk echoFiles { echoManager with _p_channel_map := some [] }).1 = 0 ∧
      (reload initOk echoFiles { echoManager with _p_channel_map := some [] }).2._p_channel_map
        = some echoMap) :=
  ⟨let h := (reload_keeps_or_publishes initOk brokenFiles echoManager).1 (by decide)
   ⟨h.1, h.2.1⟩,
   let h := (reload_keeps_or_publishes initOk echoFiles
      { echoManager with _p_channel_map := some [] }).2 echoMap (by decide)
   ⟨h.1, h.2.1⟩⟩

/-- C3: for a published snapshot and a service name that is not one of its keys,
`call` returns -1, hands no request to either transport and leaves the caller's
result object unchanged (it also adds no notice entry and leaves the snapshot as
it is); the same holds in the state reached by a successful `reload`. -/
theorem call_unknown_service (t : Transports) (self : RemoteServiceManager)
    (channel_map : ChannelMap) (service_name : String) (params : RemoteServiceParam)
    (result : RemoteServiceResult)
    (hpublished : self._p_channel_map = some channel_map)
    (habsent : service_name ∉ ChannelMap.keys channel_map) :
    ((call t self service_name params result).ret = -1 ∧
      (call t self service_name params result).sent = [] ∧
      (call t self service_name params result).result = result ∧
      (call t self service_name params result).channel_map = some channel_map) ∧
    (∀ (Init : ChannelInit) (fs : FileSystem) (before : RemoteServiceManager),
      reload Init fs before = (0, self) →
      (call t (reload Init fs before).2 service_name params result).ret = -1 ∧
      (call t (reload Init fs before).2 service_name params result).sent = [] ∧
      (call t (reload Init fs before).2 service_name params result).result = result) := by
  have hfind : ChannelMap.find channel_map service_name = none :=
    (ChannelMap.find_eq_none_iff channel_map service_name).mpr habsent
  have hcall : call t self service_name params result =
      { ret := -1, result := result, notices := [], sent := [],
        error_branch := some (CallError.cannot_find_service service_name),
        channel_map := some channel_map } := by
    simp [call, hpublished, hfind]
  refine ⟨by simp [hcall], ?_⟩
  intro Init fs before hreload
  simp [hreload, hcall]

/-- Witness of C3: `unknown-service` is not a key of the snapshot that a reload
from `echoDocument` publishes. -/
theorem call_unknown_service_witness :
    (call pongTransports echoManager "unknown-service" pingParam { result := "old" }).ret = -1 ∧
    (call pongTransports echoManager "unknown-service" pingParam { result := "old" }).sent = [] ∧
    (call pongTransports echoManager "unknown-service" pingParam { result := "old" }).result
      = { result := "old" } ∧
    (call pongTransports (reload initOk echoFiles echoManager).2 "unknown-service" pingParam
      { result := "old" }).ret = -1 :=
  let h := call_unknown_service pongTransports echoManager echoMap "unknown-service" pingParam
    { result := "old" } rfl (by decide)
  ⟨h.1.1, h.1.2.1, h.1.2.2.1, (h.2 initOk echoFiles echoManager (by decide)).1⟩

/-- C4 fails as stated: a call on a service that the published snapshot does not
hold returns -1 without any notice entry. -/
theorem call_unknown_service_adds_no_notice :
    (call pongTransports echoManager "unknown-service" pingParam { result := "" }).ret = -1 ∧
    (call pongTransports echoManager "unknown-service" pingParam { result := "" }).notices = [] ∧
    ¬ ∃ value, (call pongTransports echoManager "unknown-service" pingParam
        { result := "" }).notices = [("service_unknown-service", value)] := by
  refine ⟨by decide, by decide, ?_⟩
  rintro ⟨value, h⟩
  have h0 : (call pongTransports echoManager "unknown-service" pingParam
      { result := "" }).notices = [] := by decide
  rw [h0] at h
  cases h

/-- C4 as amended: a call that finds the service name in the published snapshot
adds exactly one notice entry, keyed `service_<service_name>`, whether the
backend call succeeds or fails or the protocol is unknown; a call that finds no
published snapshot or no entry for the name returns -1 and adds none. -/
theorem call_notice_iff_service_found (t : Transports) (self : RemoteServiceManager)
    (service_name : String) (params : RemoteServiceParam) (result : RemoteServiceResult) :
    (∀ channel_map service_channel, self._p_channel_map = some channel_map →
      ChannelMap.find channel_map service_name = some service_channel →
      ∃ value, (call t self service_name params result).notices
        = [("service_" ++ service_name, value)]) ∧
    (self._p_channel_map = none →
      (call t self service_name params result).ret = -1 ∧
      (call t self service_name params result).notices = []) ∧
    (∀ channel_map, self._p_channel_map = some channel_map →
      ChannelMap.find channel_map service_name = none →
      (call t self service_name params result).ret = -1 ∧
      (call t self service_name params result).notices = []) := by
  refine ⟨?_, ?_, ?_⟩
  · intro channel_map service_channel hpublished hfind
    rw [call_of_find params result hpublished hfind]
    exact ⟨_, rfl⟩
  · intro hnull
    simp [call, hnull]
  · intro channel_map hpublished hfind
    simp [call, hpublished, hfind]

/-- The three cases of the amended C4 at concrete inputs: a successful call, a
failed backend call and a call on an entry whose protocol is not `http` add one
notice entry each; a call on an unpublished manager adds none. -/
theorem call_notice_iff_service_found_witness :
    (call pongTransports echoManager "echo" pingParam { result := "" }).notices.length = 1 ∧
    (call downTransports echoManager "echo" pingParam { result := "" }).notices.length = 1 ∧
    (call pongTransports
      { echoManager with _p_channel_map := some [("ftp", { ChannelMap.defaultChannel with
          name := "ftp", protocol := "ftp" })] }
      "ftp" pingParam { result := "" }).notices = [("service_ftp", "remote:|tm:0|ret:-1")] ∧
    (call pongTransports { echoManager with _p_channel_map := none } "echo" pingParam
      { result := "" }).notices = [] := by
  refine ⟨?_, ?_, by decide, ?_⟩
  · obtain ⟨value, h⟩ := (call_notice_iff_service_found pongTransports echoManager "echo"
      pingParam { result := "" }).1 echoMap echoChannel rfl (by decide)
    simp [h]
  · obtain ⟨value, h⟩ := (call_notice_iff_service_found downTransports echoManager "echo"
      pingParam { result := "" }).1 echoMap echoChannel rfl (by decide)
    simp [h]
  · exact ((call_notice_iff_service_found pongTransports
      { echoManager with _p_channel_map := none } "echo" pingParam { result := "" }).2.1 rfl).2

/-- C5: for a call on a service that the published snapshot holds with protocol
`http`, the one notice entry has key `service_<service_name>` and value
`remote:<remote_side>|tm:<latency>|ret:<ret>` with `latency` and `ret` in
decimal, where `ret`, `remote_side` and `latency` come from the selected
transport: for an entry with a channel, the controller's endpoint, its
`latency_us / 1000` and 0 or -1 as the controller reports success or failure;
for an entry without one, what `call_http_by_curl` returns and leaves in its
reference parameters, which start empty and 0 and stay so when it fails. In
both cases `call` returns the `ret` that was logged. -/
theorem call_notice_value (t : Transports) (self : RemoteServiceManager)
    (channel_map : ChannelMap) (service_name : String) (service_channel : RemoteServiceChannel)
    (params : RemoteServiceParam) (result : RemoteServiceResult)
    (hpublished : self._p_channel_map = some channel_map)
    (hfind : ChannelMap.find channel_map service_name = some service_channel)
    (hprotocol : service_channel.protocol = "http") :
    (∀ channel, service_channel.channel = some channel →
      (call t self service_name params result).notices =
        [("service_" ++ service_name,
          "remote:" ++ (t.CallMethod channel
              { uri := params.url, method := params.http_method,
                request_attachment :=
                  if params.http_method = HttpMethod.HTTP_METHOD_POST then params.payload else "",
                header_calls := brpc_header_calls service_channel.headers }).remote_side
            ++ "|tm:" ++ to_string (wrapInt32 (Int.tdiv (t.CallMethod channel
              { uri := params.url, method := params.http_method,
                request_attachment :=
                  if params.http_method = HttpMethod.HTTP_METHOD_POST then params.payload else "",
                header_calls := brpc_header_calls service_channel.headers }).latency_us 1000))
            ++ "|ret:" ++ to_string (if (t.CallMethod channel
              { uri := params.url, method := params.http_method,
                request_attachment :=
                  if params.http_method = HttpMethod.HTTP_METHOD_POST then params.payload else "",
                header_calls := brpc_header_calls service_channel.headers }).Failed then -1 else 0))] ∧
      (call t self service_name params result).ret =
        (if (t.CallMethod channel
              { uri := params.url, method := params.http_method,
                request_attachment :=
                  if params.http_method = HttpMethod.HTTP_METHOD_POST then params.payload else "",
                header_calls := brpc_header_calls service_channel.headers }).Failed then -1 else 0)) ∧
    (service_channel.channel = none →
      (call t self service_name params result).notices =
        [("service_" ++ service_name,
          "remote:" ++ (call_http_by_curl t params.url params.http_method
              service_channel.headers params.payload service_channel.timeout_ms
              service_channel.max_retry result.result "" 0).remote_side
            ++ "|tm:" ++ to_string (call_http_by_curl t params.url params.http_method
              service_channel.headers params.payload service_channel.timeout_ms
              service_channel.max_retry result.result "" 0).latency
            ++ "|ret:" ++ to_string (call_http_by_curl t params.url params.http_method
              service_channel.headers params.payload service_channel.timeout_ms
              service_channel.max_retry result.result "" 0).ret)] ∧
      (call t self service_name params result).ret =
        (call_http_by_curl t params.url params.http_method service_channel.headers
          params.payload service_channel.timeout_ms service_channel.max_retry
          result.result "" 0).ret ∧
      ((call t self service_name params result).ret ≠ 0 →
        (call t self service_name params result).notices =
          [("service_" ++ service_name, "remote:|tm:0|ret:-1")])) := by
  rw [call_of_find params result hpublished hfind]
  constructor
  · intro channel hchannel
    simp only [dispatch, hprotocol, hchannel, if_true, and_true]
    cases hfailed : (t.CallMethod channel
        { uri := params.url, method := params.http_method,
          request_attachment :=
            if params.http_method = HttpMethod.HTTP_METHOD_POST then params.payload else "",
          header_calls := brpc_header_calls service_channel.headers }).Failed <;>
      simp [call_http_by_BRPC_NAMESPACE, hfailed]
  · intro hchannel
    simp only [dispatch, hprotocol, hchannel, if_true, true_and]
    intro hret
    obtain ⟨h1, -, h3, h4⟩ := call_http_by_curl_failed hret
    rw [h1, h3, h4, notice_value_of_failure]

/-- Witness of C5, the scenarios of §8: the stub server at `127.0.0.1:8000`
answering in 5 ms gives `remote:127.0.0.1:8000|tm:5|ret:0` and return value 0; an
unreachable server gives a value ending in `|ret:-1` and return value -1. -/
theorem call_notice_value_witness :
    ((call pongTransports echoManager "echo" pingParam { result := "" }).notices
        = [("service_echo", "remote:127.0.0.1:8000|tm:5|ret:0")] ∧
      (call pongTransports echoManager "echo" pingParam { result := "" }).ret = 0) ∧
    ((call downTransports echoManager "echo" pingParam { result := "" }).notices
        = [("service_echo", "remote:0.0.0.0:0|tm:1|ret:-1")] ∧
      (call downTransports echoManager "echo" pingParam { result := "" }).ret = -1) :=
  ⟨(call_notice_value pongTransports echoManager echoMap "echo" echoChannel pingParam
      { result := "" } rfl (by decide) rfl).1 _ rfl,
   (call_notice_value downTransports echoManager echoMap "echo" echoChannel pingParam
      { result := "" } rfl (by decide) rfl).1 _ rfl⟩

/-- C6 at the failing input: headers spelled `CONTENT-TYPE` and `Content-type`
are passed to `SetHeader` by the pooled path, and no content type is set. -/
theorem brpc_header_calls_other_spellings :
    brpc_header_calls [("CONTENT-TYPE", "application/json"), ("Content-type", "text/plain")]
      = [HeaderCall.SetHeader "CONTENT-TYPE" "application/json",
         HeaderCall.SetHeader "Content-type" "text/plain"] ∧
    (call_http_by_BRPC_NAMESPACE pongTransports echoHandle "/ping"
      HttpMethod.HTTP_METHOD_GET [("CONTENT-TYPE", "application/json")] "" "" "" 0).sent
      = [Sent.brpc echoHandle
          { uri := "/ping", method := HttpMethod.HTTP_METHOD_GET, request_attachment := "",
            header_calls := [HeaderCall.SetHeader "CONTENT-TYPE" "application/json"] }] := by
  constructor <;> decide

/-- C7 fails as stated: for a `Content-Type` header the curl path sends the
generic line `Content-Type: application/json`, while the pooled path passes no
generic header at all. -/
theorem curl_sends_content_type_as_generic_line :
    curl_header_lines [("Content-Type", "application/json")]
      = ["Content-Type: application/json"] ∧
    brpc_generic_headers [("Content-Type", "application/json")] = [] ∧
    curl_header_lines [("Content-Type", "application/json")]
      ≠ (brpc_generic_headers [("Content-Type", "application/json")]).map header_line := by
  refine ⟨by decide, by decide, by decide⟩

/-- C7 as amended: the curl path has no `Content-Type` special case. For every
header list it appends every header, one named `Content-Type` included, to the
curl header list as a `name: value` line, in order, and that list is what the
request carries; the pooled path passes to `SetHeader` the headers not named
`Content-Type` or `content-type`; and the two send the same generic headers
exactly when the list holds no header so named. -/
theorem curl_header_lines_all_headers (t : Transports) (url : String) (method : HttpMethod)
    (headers : List (String × String)) (payload : String) (timeout_ms max_retry : Int)
    (result remote_side : String) (latency : Int) :
    curl_header_lines headers = headers.map header_line ∧
    (∀ request, Sent.curl request ∈ (call_http_by_curl t url method headers payload timeout_ms
        max_retry result remote_side latency).sent →
      request.httpheader = headers.map header_line) ∧
    brpc_generic_headers headers
      = headers.filter (fun header => !is_content_type header.1) ∧
    (curl_header_lines headers = (brpc_generic_headers headers).map header_line ↔
      ∀ header ∈ headers, header.1 ≠ "Content-Type" ∧ header.1 ≠ "content-type") := by
  refine ⟨curl_header_lines_eq_map headers, ?_, brpc_generic_headers_eq_filter headers, ?_⟩
  · intro request hsent
    rw [← curl_header_lines_eq_map]
    unfold call_http_by_curl at hsent
    by_cases hinit : t.curl_easy_init = true
    · by_cases hres : (t.curl_easy_perform
          { url := url,
            post := if method = HttpMethod.HTTP_METHOD_POST then some payload else none,
            httpheader := curl_header_lines headers, timeout_ms := timeout_ms }).res = 0
      · simp [hinit, hres] at hsent
        rw [hsent]
      · simp [hinit, hres] at hsent
        rw [hsent]
    · simp [hinit] at hsent
  · rw [curl_header_lines_eq_map, brpc_generic_headers_eq_filter]
    constructor
    · intro heq header hmem
      have hlen : (headers.filter (fun header => !is_content_type header.1)).length
          = headers.length := by
        have := congrArg List.length heq
        simpa using this.symm
      have hall := (List.filter_eq_self.mp
        (List.Sublist.eq_of_length (List.filter_sublist headers) hlen)) header hmem
      simpa [is_content_type] using hall
    · intro hall
      have hfilter : headers.filter (fun header => !is_content_type header.1) = headers := by
        apply List.filter_eq_self.mpr
        intro header hmem
        have := hall header hmem
        simp [is_content_type, this.1, this.2]
      rw [hfilter]

/-- C8 fails as stated: a header whose name is `X-A`, NUL, `B` and whose value
is `1`, NUL, `z` is stored as (`X-A`, `1`), not as the member of the document. -/
theorem loaded_headers_cut_at_nul :
    load_channel_map initOk (ConfFile.document (.obj [("headed", nulHeadedSettings)]))
      = some [("headed", nulHeadedChannel)] ∧
    nulHeadedChannel.headers = [("X-A", "1")] ∧
    nulHeadedChannel.headers ≠ [("X-A\x00B", "1\x00z")] := by
  refine ⟨by decide, by decide, by decide⟩

/-- C8 as amended: after a successful load, the entry of the snapshot for a
service of the document (the first entry whose name, read up to its first NUL,
is the key) stores as `headers` the (name, value) members of that service's
`headers` object, in document order, each name and value read up to its first
NUL, none dropped, duplicated or reordered; the curl header list built from it
is that sequence mapped to `name: value` lines, the pooled header loop makes one
call per header in that order, and every request that `call` hands to a
transport for the service carries the headers so. -/
theorem loaded_headers_in_document_order (Init : ChannelInit) (doc : Json)
    (loaded : ChannelMap) (service_name : String) (value : Json)
    (hload : load_channel_map Init (ConfFile.document doc) = some loaded)
    (hentry : FindService doc.members service_name = some value) :
    ∃ service_channel, ChannelMap.find loaded service_name = some service_channel ∧
      service_channel.headers = document_headers value ∧
      service_channel.headers.length = (document_headers value).length ∧
      curl_header_lines service_channel.headers = (document_headers value).map header_line ∧
      brpc_header_calls service_channel.headers
        = (document_headers value).map brpc_header_call ∧
      ∀ (t : Transports) (path : String) (params : RemoteServiceParam)
        (result : RemoteServiceResult),
        ∀ s ∈ (call t { _conf_file_path := path, _p_channel_map := some loaded } service_name
            params result).sent,
          (∀ request, s = Sent.curl request →
            request.httpheader = (document_headers value).map header_line) ∧
          (∀ channel cntl, s = Sent.brpc channel cntl →
            cntl.header_calls = (document_headers value).map brpc_header_call) := by
  obtain ⟨service_channel, hbody, hfind⟩ := load_channel_map_find hload hentry
  obtain ⟨-, a, b, c, d, e, headers, -, -, -, -, -, hheaders, hmake⟩ :=
    load_service_eq_some hbody
  obtain ⟨-, -, -, -, -, hstored, -⟩ := make_service_channel_eq_some hmake
  have hdoc : service_channel.headers = document_headers value := by
    rw [hstored]
    exact headers_member_eq_some hheaders
  refine ⟨service_channel, hfind, hdoc, by rw [hdoc], ?_, ?_, ?_⟩
  · rw [curl_header_lines_eq_map, hdoc]
  · rw [brpc_header_calls_eq_map, hdoc]
  · intro t path params result s hs
    rw [call_of_find params result rfl hfind] at hs
    have h := dispatch_sent_headers t service_channel params result s hs
    rw [curl_header_lines_eq_map, brpc_header_calls_eq_map, hdoc] at h
    exact h

/-- Witness of the amended C8: a service with the headers `X-B: 2`, `X-A: 1`,
`X-B: 3`, and the service of `nulHeadedSettings`. -/
theorem loaded_headers_in_document_order_witness :
    (∃ service_channel,
      ChannelMap.find [("echo", echoChannel), ("headed", headedChannel)] "headed"
        = some service_channel ∧
      service_channel.headers = [("X-B", "2"), ("X-A", "1"), ("X-B", "3")] ∧
      curl_header_lines service_channel.headers = ["X-B: 2", "X-A: 1", "X-B: 3"]) ∧
    (∃ service_channel,
      ChannelMap.find [("headed", nulHeadedChannel)] "headed" = some service_channel ∧
      service_channel.headers = [("X-A", "1")]) := by
  constructor
  · obtain ⟨service_channel, hfind, hheaders, -, hlines, -⟩ :=
      loaded_headers_in_document_order initOk
        (.obj [("echo", echoSettings), ("headed", headedSettings)])
        [("echo", echoChannel), ("headed", headedChannel)]
        "headed" headedSettings (by decide) (by rfl)
    refine ⟨service_channel, hfind, ?_, ?_⟩
    · rw [hheaders]; decide
    · rw [hlines]; decide
  · obtain ⟨service_channel, hfind, hheaders, -⟩ :=
      loaded_headers_in_document_order initOk (.obj [("headed", nulHeadedSettings)])
        [("headed", nulHeadedChannel)] "headed" nulHeadedSettings (by decide) (by rfl)
    refine ⟨service_channel, hfind, ?_⟩
    rw [hheaders]; decide

/-- C9 fails as stated: a document whose only service has `timeout_ms` -1 and
`retry` -3 loads, and the snapshot holds both negative values. -/
theorem load_channel_map_negative_timeout_retry :
    load_channel_map initOk (ConfFile.document (.obj [("slow", negativeSettings)]))
      = some [("slow", negativeChannel)] ∧
    negativeChannel.timeout_ms < 0 ∧ negativeChannel.max_retry < 0 := by
  refine ⟨by decide, by decide, by decide⟩

/-- C9 as amended: every entry of every snapshot that `load_channel_map` returns
has as `timeout_ms` and `max_retry` the `timeout_ms` and `retry` integers of a
service entry of the document with that name (the name as the loader reads it,
up to its first NUL), and both fit a signed 32-bit `int`; the loader checks no
sign. -/
theorem loaded_timeout_retry_from_document (Init : ChannelInit) (file : ConfFile)
    (loaded : ChannelMap) (entry : String × RemoteServiceChannel)
    (hload : load_channel_map Init file = some loaded) (hmem : entry ∈ loaded) :
    ∃ doc name value, file = ConfFile.document doc ∧ (name, value) ∈ doc.members ∧
      c_str name = entry.1 ∧
      FindMember value.members "timeout_ms" = some (Json.int entry.2.timeout_ms) ∧
      FindMember value.members "retry" = some (Json.int entry.2.max_retry) ∧
      (-2147483648 ≤ entry.2.timeout_ms ∧ entry.2.timeout_ms ≤ 2147483647) ∧
      (-2147483648 ≤ entry.2.max_retry ∧ entry.2.max_retry ≤ 2147483647) := by
  obtain ⟨doc, name, value, hfile, hvalue, hname, hbody⟩ := load_channel_map_mem hload hmem
  obtain ⟨-, a, b, c, d, e, f, -, -, -, htimeout, hretry, -, hmake⟩ :=
    load_service_eq_some hbody
  obtain ⟨-, -, -, ht, hr, -, -⟩ := make_service_channel_eq_some hmake
  obtain ⟨ht1, ht2, ht3⟩ := int_member_eq_some htimeout
  obtain ⟨hr1, hr2, hr3⟩ := int_member_eq_some hretry
  refine ⟨doc, name, value, hfile, hvalue, hname, ?_, ?_, ?_, ?_⟩
  · rw [ht, ht1]
  · rw [hr, hr1]
  · rw [ht]; exact ⟨ht2, ht3⟩
  · rw [hr]; exact ⟨hr2, hr3⟩

/-- Witness of the amended C9 on the snapshot of `echoDocument`. -/
theorem loaded_timeout_retry_from_document_witness :
    ∃ doc name value, ConfFile.document echoDocument = ConfFile.document doc ∧
      (name, value) ∈ doc.members ∧ c_str name = "echo" ∧
      FindMember value.members "timeout_ms" = some (Json.int 100) ∧
      FindMember value.members "retry" = some (Json.int 0) := by
  obtain ⟨doc, name, value, h1, h2, h3, h4, h5, -, -⟩ :=
    loaded_timeout_retry_from_document initOk (ConfFile.document echoDocument) echoMap
      ("echo", echoChannel) (by decide) (by decide)
  exact ⟨doc, name, value, h1, h2, h3, h4, h5⟩

/-- C10 fails as stated: the protocol string `http`, NUL, `s` is not `http`, yet
the document loads, to the snapshot of `echoDocument`. -/
theorem load_channel_map_protocol_cut_at_nul :
    "http\x00s" ≠ "http" ∧
    load_channel_map initOk
      (ConfFile.document (.obj [("echo", echoSettingsWithProtocol "http\x00s")]))
      = some echoMap := by
  refine ⟨by decide, by decide⟩

/-- C10 as amended: a document in which a service entry has a `protocol` string
that, read up to its first NUL, is other than `http` makes `load_channel_map`
fail; so every entry of every snapshot that `load_channel_map` returns has
protocol `http`, and no `call` on such a snapshot takes the unknown-protocol
branch. -/
theorem loaded_protocol_is_http (Init : ChannelInit) (file : ConfFile) :
    (∀ doc entry settings protocol, file = ConfFile.document doc → entry ∈ doc.members →
      entry.2 = Json.obj settings →
      FindMember settings "protocol" = some (Json.str protocol) → c_str protocol ≠ "http" →
      load_channel_map Init file = none) ∧
    (∀ loaded, load_channel_map Init file = some loaded →
      (∀ entry ∈ loaded, entry.2.protocol = "http") ∧
      ∀ (t : Transports) (path service_name : String) (params : RemoteServiceParam)
        (result : RemoteServiceResult) (protocol : String),
        (call t { _conf_file_path := path, _p_channel_map := some loaded } service_name params
          result).error_branch ≠ some (CallError.unknown_protocol protocol)) := by
  have hall : ∀ loaded, load_channel_map Init file = some loaded →
      ∀ entry ∈ loaded, entry.2.protocol = "http" := by
    intro loaded hload entry hmem
    obtain ⟨doc, name, value, -, -, -, hbody⟩ := load_channel_map_mem hload hmem
    obtain ⟨-, a, b, c, d, e, f, -, -, -, -, -, -, hmake⟩ := load_service_eq_some hbody
    exact (make_service_channel_eq_some hmake).2.2.1
  refine ⟨?_, fun loaded hload => ⟨hall loaded hload, ?_⟩⟩
  · intro doc entry settings protocol hfile hmem hobj hfind hne
    subst hfile
    have hbody : load_service Init entry.1 entry.2 = none := by
      cases hb : load_service Init entry.1 entry.2 with
      | none => rfl
      | some ch =>
        exfalso
        obtain ⟨-, a, b, c, d, e, f, -, -, hprotocol, -, -, -, hmake⟩ := load_service_eq_some hb
        have hc : c = "http" := (make_service_channel_eq_some hmake).1
        obtain ⟨text, hfound, htext⟩ := string_member_eq_some hprotocol
        rw [hobj] at hfound
        simp only [Json.members] at hfound
        rw [hfind] at hfound
        simp only [Option.some.injEq, Json.str.injEq] at hfound
        rw [hfound] at hne
        exact hne (htext.trans hc)
    cases hobj2 : doc.IsObject with
    | false => simp [load_channel_map, hobj2]
    | true =>
      simp only [load_channel_map, hobj2, not_true_eq_false, if_false]
      exact load_services_eq_none_of_mem doc.members [] entry hmem hbody
  · intro t path service_name params result protocol
    cases hfind : ChannelMap.find loaded service_name with
    | none => simp [call, hfind]
    | some service_channel =>
      rw [call_of_find params result rfl hfind]
      have hp := hall loaded hload (service_name, service_channel) (ChannelMap.mem_of_find hfind)
      simp only at hp
      simp [hp]

/-- Witness of the amended C10: a document with an `https` service after a valid
one does not load; the snapshot of `echoDocument` holds only `http`, and a call
on it, here one that reaches the pooled transport, takes no error branch. -/
theorem loaded_protocol_is_http_witness :
    load_channel_map initOk
      (ConfFile.document (.obj [("echo", echoSettings), ("secure", httpsSettings)])) = none ∧
    (∀ entry ∈ echoMap, entry.2.protocol = "http") ∧
    (call pongTransports echoManager "echo" pingParam { result := "" }).error_branch = none :=
  ⟨(loaded_protocol_is_http initOk _).1 (.obj [("echo", echoSettings), ("secure", httpsSettings)])
      ("secure", httpsSettings) _ "https" rfl (by simp [Json.members]) rfl rfl (by decide),
   ((loaded_protocol_is_http initOk (ConfFile.document echoDocument)).2 echoMap (by decide)).1,
   by decide⟩

/-! ### Lemmas about the `client` setting -/

/-- The loop body on settings whose other checks pass is the tail of the body. -/
theorem load_service_of_valid (Init : ChannelInit) (service_name : String)
    {settings : List (String × Json)} (h : valid_apart_from_client settings = true) :
    ∃ naming_service_url load_balancer_name timeout_ms retry headers,
      string_member settings "naming_service_url" = some naming_service_url ∧
      string_member settings "load_balancer_name" = some load_balancer_name ∧
      int_member settings "timeout_ms" = some timeout_ms ∧
      int_member settings "retry" = some retry ∧
      headers_member settings = some headers ∧
      load_service Init service_name (Json.obj settings) =
        make_service_channel Init service_name naming_service_url load_balancer_name "http"
          (client_member settings) timeout_ms retry headers := by
  simp only [valid_apart_from_client, Bool.and_eq_true, decide_eq_true_eq,
    Option.isSome_iff_exists] at h
  obtain ⟨⟨⟨⟨⟨⟨a, h1⟩, ⟨b, h2⟩⟩, h3⟩, ⟨d, h4⟩⟩, ⟨e, h5⟩⟩, ⟨f, h6⟩⟩ := h
  refine ⟨a, b, d, e, f, h1, h2, h4, h5, h6, ?_⟩
  simp [load_service, Json.IsObject, Json.members, h1, h2, h3, h4, h5, h6]

theorem client_member_of_string {settings : List (String × Json)} {client : String}
    (h : FindMember settings "client" = some (Json.str client)) :
    client_member settings = c_str client := by
  simp [client_member, h, Json.IsString, Json.GetString]

theorem client_member_of_absent {settings : List (String × Json)}
    (h : FindMember settings "client" = none) : client_member settings = "" := by
  simp [client_member, h]

theorem client_member_of_non_string {settings : List (String × Json)} {value : Json}
    (h : FindMember settings "client" = some value) (hbad : value.IsString = false) :
    client_member settings = "" := by
  simp [client_member, h, hbad]

/-- The loop succeeds when every pass of its body does. -/
theorem load_services_isSome {Init : ChannelInit} :
    ∀ (members : List (String × Json)) (channel_map : ChannelMap),
      (∀ entry ∈ members, (load_service Init entry.1 entry.2).isSome = true) →
      (load_services Init members channel_map).isSome = true
  | [], _, _ => rfl
  | (name, value) :: rest, channel_map, hall => by
    unfold load_services
    have hhead := hall (name, value) (List.mem_cons_self _ _)
    cases hch : load_service Init (c_str name) value with
    | none =>
      simp only at hhead
      rw [load_service_eq_none_rename name hch] at hhead
      cases hhead
    | some ch =>
      exact load_services_isSome rest _ fun entry hmem =>
        hall entry (List.mem_cons_of_mem _ hmem)

/-- C11 fails as stated: the client string `curl`, NUL, `x` is none of the empty
string, `brpc` and `curl`, yet the document loads, as a `curl` service. -/
theorem load_channel_map_client_cut_at_nul :
    ("curl\x00x" ≠ "" ∧ "curl\x00x" ≠ "brpc" ∧ "curl\x00x" ≠ "curl") ∧
    load_channel_map initOk
      (ConfFile.document (.obj [("direct", echoSettingsWithClient (.str "curl\x00x"))]))
      = some [("direct", curlChannel)] := by
  refine ⟨⟨by decide, by decide, by decide⟩, by decide⟩

/-- C11 as amended: a document in which some service has a `client` string that,
read up to its first NUL, is other than the empty string, `brpc` and `curl`
(compared exactly) makes `load_channel_map` fail; and on an entry whose other
checks pass, a `client` that is unspecified, empty, `brpc` or `curl` does not
make the loop body fail: it succeeds for `curl`, and for the pooled values
whenever the channel's `Init` returns 0. -/
theorem client_value_checked (Init : ChannelInit) :
    (∀ (doc : Json) (entry : String × Json) (settings : List (String × Json))
        (client : String),
      entry ∈ doc.members → entry.2 = Json.obj settings →
      FindMember settings "client" = some (Json.str client) →
      c_str client ≠ "" → c_str client ≠ "brpc" → c_str client ≠ "curl" →
      load_channel_map Init (ConfFile.document doc) = none) ∧
    (∀ (service_name : String) (settings : List (String × Json)),
      valid_apart_from_client settings = true →
      (client_member settings = "curl" →
        (load_service Init service_name (Json.obj settings)).isSome = true) ∧
      (client_member settings = "" ∨ client_member settings = "brpc" →
        init_code Init settings = 0 →
        (load_service Init service_name (Json.obj settings)).isSome = true)) := by
  constructor
  · intro doc entry settings client hmem hobj hclient h1 h2 h3
    have hbody : load_service Init entry.1 entry.2 = none := by
      cases hb : load_service Init entry.1 entry.2 with
      | none => rfl
      | some ch =>
        exfalso
        obtain ⟨-, a, b, c, d, e, f, -, -, -, -, -, -, hmake⟩ := load_service_eq_some hb
        rw [hobj] at hmake
        simp only [Json.members] at hmake
        rw [client_member_of_string hclient] at hmake
        rcases (make_service_channel_eq_some hmake).2.2.2.2.2.2 with ⟨hc, -, -⟩ | ⟨hc, -⟩
        · rcases hc with hc | hc
          · exact h1 hc
          · exact h2 hc
        · exact h3 hc
    cases hobj2 : doc.IsObject with
    | false => simp [load_channel_map, hobj2]
    | true =>
      simp only [load_channel_map, hobj2, not_true_eq_false, if_false]
      exact load_services_eq_none_of_mem doc.members [] entry hmem hbody
  · intro service_name settings hvalid
    obtain ⟨a, b, d, e, f, h1, h2, h4, h5, h6, hbody⟩ :=
      load_service_of_valid Init service_name hvalid
    rw [hbody]
    constructor
    · intro hcurl
      simp [make_service_channel, hcurl]
    · intro hpooled hinit
      have hcode : Init a b { timeout_ms := d, max_retry := e } = 0 := by
        simpa [init_code, h1, h2, h4, h5] using hinit
      simp [make_service_channel, hpooled, hcode]

/-- Witness of the amended C11: `Brpc` and `CURL` fail the document, also after a valid
entry; `brpc`, the empty string, `curl` and no `client` at all load. -/
theorem client_value_checked_witness :
    load_channel_map initOk (ConfFile.document
      (.obj [("echo", echoSettings), ("odd", echoSettingsWithClient (.str "Brpc"))])) = none ∧
    load_channel_map initOk (ConfFile.document
      (.obj [("odd", echoSettingsWithClient (.str "CURL"))])) = none ∧
    (load_service initFails "a" (echoSettingsWithClient (.str "curl"))).isSome = true ∧
    (load_service initOk "a" (echoSettingsWithClient (.str "brpc"))).isSome = true ∧
    (load_service initOk "a" (echoSettingsWithClient (.str ""))).isSome = true ∧
    (load_service initOk "a" echoSettings).isSome = true :=
  ⟨(client_value_checked initOk).1
      (.obj [("echo", echoSettings), ("odd", echoSettingsWithClient (.str "Brpc"))])
      ("odd", echoSettingsWithClient (.str "Brpc")) _ "Brpc" (by simp [Json.members]) rfl rfl
      (by decide) (by decide) (by decide),
   (client_value_checked initOk).1 (.obj [("odd", echoSettingsWithClient (.str "CURL"))])
      ("odd", echoSettingsWithClient (.str "CURL")) _ "CURL" (by simp [Json.members]) rfl rfl
      (by decide) (by decide) (by decide),
   ((client_value_checked initFails).2 "a" _ (by decide)).1 (by decide),
   ((client_value_checked initOk).2 "a" _ (by decide)).2 (by decide) (by decide),
   ((client_value_checked initOk).2 "a" _ (by decide)).2 (by decide) (by decide),
   ((client_value_checked initOk).2 "a" _ (by decide)).2 (by decide) (by decide)⟩

/-- C12 fails as stated: a service whose `client` is the number 5, which is
neither unspecified nor empty nor `brpc`, loads with a pooled channel. -/
theorem numeric_client_loads_pooled :
    FindMember (echoSettingsWithClient (.int 5)).members "client" = some (Json.int 5) ∧
    load_channel_map initOk
      (ConfFile.document (.obj [("echo", echoSettingsWithClient (.int 5))])) = some echoMap ∧
    ChannelMap.find echoMap "echo" = some echoChannel ∧
    echoChannel.channel ≠ none := by
  refine ⟨rfl, by decide, by decide, by decide⟩

/-- C12 as amended: after a successful load, the entry for a service of the
document (the first entry whose name, read up to its first NUL, is the key)
holds a pooled channel exactly when the service's `client` is unspecified, is
not a string, or is a string that reads, up to its first NUL, as empty or
`brpc`; and holds none exactly when it is a string that reads as `curl`. A
`call` on the service hands exactly one request to the pooled transport and
none to curl when the channel is there; when it is not, it runs the curl path
with the entry's `timeout_ms` and hands nothing to the pooled transport. -/
theorem channel_present_iff_pooled_client (Init : ChannelInit) (doc : Json)
    (loaded : ChannelMap) (service_name : String) (value : Json)
    (hload : load_channel_map Init (ConfFile.document doc) = some loaded)
    (hentry : FindService doc.members service_name = some value) :
    ∃ service_channel, ChannelMap.find loaded service_name = some service_channel ∧
      (service_channel.channel ≠ none ↔
        FindMember value.members "client" = none ∨
        (∃ other, FindMember value.members "client" = some other ∧ other.IsString = false) ∨
        ∃ client, FindMember value.members "client" = some (Json.str client) ∧
          (c_str client = "" ∨ c_str client = "brpc")) ∧
      (service_channel.channel = none ↔
        ∃ client, FindMember value.members "client" = some (Json.str client) ∧
          c_str client = "curl") ∧
      ∀ (t : Transports) (path : String) (params : RemoteServiceParam)
        (result : RemoteServiceResult),
        (∀ channel, service_channel.channel = some channel →
          (call t { _conf_file_path := path, _p_channel_map := some loaded } service_name
            params result).sent =
            [Sent.brpc channel
              { uri := params.url, method := params.http_method,
                request_attachment :=
                  if params.http_method = HttpMethod.HTTP_METHOD_POST then params.payload
                  else "",
                header_calls := brpc_header_calls service_channel.headers }]) ∧
        (service_channel.channel = none →
          (call t { _conf_file_path := path, _p_channel_map := some loaded } service_name
            params result).sent =
            if t.curl_easy_init then
              [Sent.curl
                { url := params.url,
                  post := if params.http_method = HttpMethod.HTTP_METHOD_POST
                    then some params.payload else none,
                  httpheader := curl_header_lines service_channel.headers,
                  timeout_ms := service_channel.timeout_ms }]
            else []) := by
  obtain ⟨service_channel, hbody, hfind⟩ := load_channel_map_find hload hentry
  obtain ⟨-, a, b, c, d, e, f, -, -, -, -, -, -, hmake⟩ := load_service_eq_some hbody
  obtain ⟨-, -, hprotocol, -, -, -, hclient⟩ := make_service_channel_eq_some hmake
  have hpooled : service_channel.channel ≠ none ↔
      client_member value.members = "" ∨ client_member value.members = "brpc" := by
    rcases hclient with ⟨hc, -, hch⟩ | ⟨hc, hch⟩
    · simp [hch, hc]
    · simp [hch, hc]
  have hcurl : service_channel.channel = none ↔ client_member value.members = "curl" := by
    rcases hclient with ⟨hc, -, hch⟩ | ⟨hc, hch⟩
    · rcases hc with hc | hc <;> simp [hch, hc]
    · simp [hch, hc]
  refine ⟨service_channel, hfind, ?_, ?_, ?_⟩
  · rw [hpooled]
    cases hgiven : FindMember value.members "client" with
    | none => simp [client_member_of_absent hgiven]
    | some other =>
      cases hstring : other.IsString with
      | false => simp [client_member_of_non_string hgiven hstring, hstring]
      | true =>
        cases other <;> simp [Json.IsString] at hstring
        rename_i client
        rw [client_member_of_string hgiven]
        simp [Json.IsString]
  · rw [hcurl]
    cases hgiven : FindMember value.members "client" with
    | none => simp [client_member_of_absent hgiven]
    | some other =>
      cases hstring : other.IsString with
      | false =>
        rw [client_member_of_non_string hgiven hstring]
        constructor
        · intro h; exact absurd h (by decide)
        · rintro ⟨client, h, -⟩
          simp only [Option.some.injEq] at h
          rw [h] at hstring
          simp [Json.IsString] at hstring
      | true =>
        cases other <;> simp [Json.IsString] at hstring
        rename_i client
        rw [client_member_of_string hgiven]
        simp
  · intro t path params result
    rw [call_of_find params result rfl hfind]
    constructor
    · intro channel hch
      simp only [dispatch, hprotocol, hch, if_true, call_http_by_BRPC_NAMESPACE_sent]
    · intro hch
      simp only [dispatch, hprotocol, hch, if_true, call_http_by_curl_sent]

/-- Witness of the amended C12: a document with a pooled service and a `curl`
service, and a document whose service has a numeric `client`. -/
theorem channel_present_iff_pooled_client_witness :
    (∃ service_channel,
      ChannelMap.find [("echo", echoChannel), ("direct", curlChannel)] "direct"
        = some service_channel ∧
      service_channel.channel = none) ∧
    (∃ service_channel,
      ChannelMap.find [("echo", echoChannel), ("direct", curlChannel)] "echo"
        = some service_channel ∧
      service_channel.channel ≠ none) ∧
    (∃ service_channel,
      ChannelMap.find echoMap "echo" = some service_channel ∧
      service_channel.channel ≠ none) := by
  refine ⟨?_, ?_, ?_⟩
  · obtain ⟨service_channel, hfind, -, hnone, -⟩ :=
      channel_present_iff_pooled_client initOk
        (.obj [("echo", echoSettings), ("direct", echoSettingsWithClient (.str "curl"))])
        [("echo", echoChannel), ("direct", curlChannel)] "direct"
        (echoSettingsWithClient (.str "curl")) (by decide) (by rfl)
    exact ⟨service_channel, hfind, hnone.mpr ⟨"curl", rfl, by decide⟩⟩
  · obtain ⟨service_channel, hfind, hsome, -, -⟩ :=
      channel_present_iff_pooled_client initOk
        (.obj [("echo", echoSettings), ("direct", echoSettingsWithClient (.str "curl"))])
        [("echo", echoChannel), ("direct", curlChannel)] "echo" echoSettings
        (by decide) (by rfl)
    exact ⟨service_channel, hfind, hsome.mpr (Or.inl rfl)⟩
  · obtain ⟨service_channel, hfind, hsome, -, -⟩ :=
      channel_present_iff_pooled_client initOk
        (.obj [("echo", echoSettingsWithClient (.int 5))]) echoMap "echo"
        (echoSettingsWithClient (.int 5)) (by decide) (by rfl)
    exact ⟨service_channel, hfind, hsome.mpr (Or.inr (Or.inl ⟨Json.int 5, rfl, rfl⟩))⟩

/-! ### Lemmas about wrongly typed optional settings -/

theorem FindMember_without_member (settings : List (String × Json)) (removed name : String) :
    FindMember (without_member settings removed) name =
      if name = removed then none else FindMember settings name := by
  induction settings with
  | nil => simp [without_member, FindMember]
  | cons head rest ih =>
    obtain ⟨k, v⟩ := head
    unfold without_member at ih ⊢
    by_cases hk : k = removed
    · by_cases hn : name = removed
      · simp [List.filter_cons, hk, hn] at ih ⊢
        exact ih
      · have hne : ¬ removed = name := fun h => hn h.symm
        simp [List.filter_cons, hk, hn, FindMember, hne] at ih ⊢
        exact ih
    · by_cases hn : name = removed
      · have hkn : ¬ k = name := fun h => hk (h.trans hn)
        simp only [List.filter_cons, hk, hn, ne_eq, not_false_eq_true, decide_True, if_true,
          FindMember] at ih ⊢
        rw [hn] at hkn
        simp only [hkn, if_false]
        exact ih
      · simp only [List.filter_cons, hk, hn, ne_eq, not_false_eq_true, decide_True, if_true,
          if_false, FindMember] at ih ⊢
        rw [ih]

theorem load_headers_eq_none_of_mem :
    ∀ (members : List (String × Json)) (acc : List (String × String)) (header : String × Json),
      header ∈ members → header.2.IsString = false → load_headers members acc = none
  | [], _, _, hmem, _ => absurd hmem (List.not_mem_nil _)
  | (header_key, value) :: rest, acc, header, hmem, hbad => by
    unfold load_headers
    rcases List.mem_cons.mp hmem with rfl | hrest
    · simp [hbad]
    · by_cases hs : value.IsString = true
      · simp only [hs, not_true_eq_false, if_false]
        exact load_headers_eq_none_of_mem rest _ header hrest hbad
      · simp [hs]

theorem load_service_bad_header_value {Init : ChannelInit} {service_name : String}
    {value : Json} (h : has_bad_header_value value = true) :
    load_service Init service_name value = none := by
  obtain ⟨obj_headers, header, hfind, hmem, hbad⟩ :
      ∃ obj_headers header, FindMember value.members "headers" = some (Json.obj obj_headers) ∧
        header ∈ obj_headers ∧ header.2.IsString = false := by
    unfold has_bad_header_value at h
    cases hf : FindMember value.members "headers" with
    | none => simp [hf] at h
    | some v =>
      rw [hf] at h
      cases v with
      | obj obj_headers =>
        simp only [List.any_eq_true, Bool.not_eq_true'] at h
        obtain ⟨header, hmem, hbad⟩ := h
        exact ⟨obj_headers, header, rfl, hmem, hbad⟩
      | null => simp at h
      | bool b => simp at h
      | int i => simp at h
      | real r => simp at h
      | str s => simp at h
      | arr items => simp at h
  cases hb : load_service Init service_name value with
  | none => rfl
  | some ch =>
    exfalso
    obtain ⟨-, a, b, c, d, e, f, -, -, -, -, -, hheaders, -⟩ := load_service_eq_some hb
    unfold headers_member at hheaders
    rw [hfind] at hheaders
    simp only [Json.IsObject, if_true, Json.members] at hheaders
    rw [load_headers_eq_none_of_mem obj_headers [] header hmem hbad] at hheaders
    cases hheaders

/-- A `client` that is not a string is read as if the entry had no `client`. -/
theorem load_service_non_string_client {Init : ChannelInit} {service_name : String}
    {settings : List (String × Json)} {value : Json}
    (hfind : FindMember settings "client" = some value) (hbad : value.IsString = false) :
    load_service Init service_name (Json.obj settings) =
      load_service Init service_name (Json.obj (without_member settings "client")) := by
  have hF : ∀ name, name ≠ "client" →
      FindMember (without_member settings "client") name = FindMember settings name := by
    intro name hname
    rw [FindMember_without_member]
    simp [hname]
  have h1 := hF "naming_service_url" (by decide)
  have h2 := hF "load_balancer_name" (by decide)
  have h3 := hF "protocol" (by decide)
  have h4 := hF "timeout_ms" (by decide)
  have h5 := hF "retry" (by decide)
  have h6 := hF "headers" (by decide)
  have hc1 : client_member settings = "" := by
    simp [client_member, hfind, hbad]
  have hc2 : client_member (without_member settings "client") = "" := by
    simp [client_member, FindMember_without_member]
  simp only [load_service, Json.IsObject, Json.members, string_member, int_member,
    headers_member, h1, h2, h3, h4, h5, h6, hc1, hc2]

/-- A `headers` that is not an object is read as if the entry had no `headers`. -/
theorem load_service_non_object_headers {Init : ChannelInit} {service_name : String}
    {settings : List (String × Json)} {value : Json}
    (hfind : FindMember settings "headers" = some value) (hbad : value.IsObject = false) :
    load_service Init service_name (Json.obj settings) =
      load_service Init service_name (Json.obj (without_member settings "headers")) := by
  have hF : ∀ name, name ≠ "headers" →
      FindMember (without_member settings "headers") name = FindMember settings name := by
    intro name hname
    rw [FindMember_without_member]
    simp [hname]
  have h1 := hF "naming_service_url" (by decide)
  have h2 := hF "load_balancer_name" (by decide)
  have h3 := hF "protocol" (by decide)
  have h4 := hF "timeout_ms" (by decide)
  have h5 := hF "retry" (by decide)
  have h6 := hF "client" (by decide)
  have hh1 : headers_member settings = some [] := by
    simp [headers_member, hfind, hbad]
  have hh2 : headers_member (without_member settings "headers") = some [] := by
    simp [headers_member, FindMember_without_member]
  simp only [load_service, Json.IsObject, Json.members, string_member, int_member,
    client_member, h1, h2, h3, h4, h5, h6, hh1, hh2]

/-- C13 fails as stated: a `client` that is a number and a `headers` that is a
string do not make the load fail, and `reload` then returns 0 and publishes the
new snapshot. -/
theorem load_channel_map_accepts_wrong_typed_optional :
    load_channel_map initOk (ConfFile.document
      (.obj [("echo", echoSettingsWithClient (.int 5))])) = some echoMap ∧
    load_channel_map initOk (ConfFile.document
      (.obj [("echo", echoSettingsWithHeaders (.str "none"))])) = some echoMap ∧
    reload initOk (fun _ => ConfFile.document (.obj [("echo", echoSettingsWithClient (.int 5))]))
      { echoManager with _p_channel_map := some [] } = (0, echoManager) := by
  refine ⟨by decide, by decide, by decide⟩

/-- C13 as amended: a configuration in which a service entry is not an object,
a required setting is missing or of the wrong type, or a header value of a
`headers` object is not a string, fails to load, so `reload` returns -1 and
leaves the manager as it was. A `client` that is present but not a string and a
`headers` that is present but not an object do not fail the load: the entry is
read as if that member were absent. -/
theorem wrong_type_fails_except_optional (Init : ChannelInit) (fs : FileSystem)
    (self : RemoteServiceManager) :
    (∀ (doc : Json) (entry : String × Json),
      fs self._conf_file_path = ConfFile.document doc → entry ∈ doc.members →
      malformed_entry entry.2 = true ∨ has_bad_header_value entry.2 = true →
      load_channel_map Init (fs self._conf_file_path) = none ∧
      reload Init fs self = (-1, self)) ∧
    (∀ (service_name : String) (settings : List (String × Json)) (value : Json),
      FindMember settings "client" = some value → value.IsString = false →
      load_service Init service_name (Json.obj settings) =
        load_service Init service_name (Json.obj (without_member settings "client"))) ∧
    (∀ (service_name : String) (settings : List (String × Json)) (value : Json),
      FindMember settings "headers" = some value → value.IsObject = false →
      load_service Init service_name (Json.obj settings) =
        load_service Init service_name (Json.obj (without_member settings "headers"))) := by
  refine ⟨?_, fun _ _ _ h1 h2 => load_service_non_string_client h1 h2,
    fun _ _ _ h1 h2 => load_service_non_object_headers h1 h2⟩
  intro doc entry hfile hmem hbad
  have hbody : load_service Init entry.1 entry.2 = none := by
    rcases hbad with h | h
    · exact load_service_malformed h
    · exact load_service_bad_header_value h
  have hload : load_channel_map Init (fs self._conf_file_path) = none := by
    rw [hfile]
    cases hobj : doc.IsObject with
    | false => simp [load_channel_map, hobj]
    | true =>
      simp only [load_channel_map, hobj, not_true_eq_false, if_false]
      exact load_services_eq_none_of_mem doc.members [] entry hmem hbody
  exact ⟨hload, by simp [reload, hload]⟩

/-- The amended C13 at concrete inputs: a header value that is a number fails the
reload and keeps `echoMap`; an entry with a numeric `client` loads to what the
entry without `client` loads to. -/
theorem wrong_type_fails_except_optional_witness :
    reload initOk
        (fun _ => ConfFile.document
          (.obj [("echo", echoSettingsWithHeaders (.obj [("X-A", .int 1)]))]))
        echoManager = (-1, echoManager) ∧
    load_service initOk "echo" (echoSettingsWithClient (.int 5)) = some echoChannel :=
  ⟨((wrong_type_fails_except_optional initOk
        (fun _ => ConfFile.document
          (.obj [("echo", echoSettingsWithHeaders (.obj [("X-A", .int 1)]))]))
        echoManager).1 _ ("echo", echoSettingsWithHeaders (.obj [("X-A", .int 1)])) rfl
        (by simp [Json.members])
        (Or.inr (by decide))).2,
   ((wrong_type_fails_except_optional initOk echoFiles echoManager).2.1 "echo"
        (echoSettingsWithClient (.int 5)).members (.int 5) rfl rfl).trans (by decide)⟩

/-- C14 fails as stated: a document whose only service is a `curl` service
without `naming_service_url`, without `load_balancer_name`, or without both,
does not load. -/
theorem load_channel_map_curl_needs_url_and_balancer :
    load_channel_map initOk (ConfFile.document (.obj [("direct", curlSettingsNoUrl)])) = none ∧
    load_channel_map initOk (ConfFile.document (.obj [("direct", curlSettingsNoBalancer)]))
      = none ∧
    load_channel_map initOk (ConfFile.document (.obj [("direct", curlSettingsNeither)]))
      = none := by
  refine ⟨by decide, by decide, by decide⟩

/-- C14 as amended: a service entry with `client` = `curl` requires
`naming_service_url` and `load_balancer_name` like every other entry, and a
document in which a `curl` service omits one of them does not load. Their values
are not used for such a service: when both are strings and the other checks
pass, the entry loads without a channel, whatever `Init` would return. -/
theorem curl_entry_requires_url_and_balancer (Init : ChannelInit) :
    (∀ (doc : Json) (entry : String × Json) (settings : List (String × Json)),
      entry ∈ doc.members → entry.2 = Json.obj settings →
      FindMember settings "client" = some (Json.str "curl") →
      FindMember settings "naming_service_url" = none ∨
        FindMember settings "load_balancer_name" = none →
      load_channel_map Init (ConfFile.document doc) = none) ∧
    (∀ (service_name : String) (settings : List (String × Json)),
      valid_apart_from_client settings = true → client_member settings = "curl" →
      (∃ service_channel,
        load_service Init service_name (Json.obj settings) = some service_channel ∧
        service_channel.channel = none) ∧
      ∀ Init2 : ChannelInit, load_service Init2 service_name (Json.obj settings) =
        load_service Init service_name (Json.obj settings)) := by
  constructor
  · intro doc entry settings hmem hobj _ hmissing
    have hbad : malformed_entry entry.2 = true := by
      rw [hobj]
      rcases hmissing with h | h
      · simp [malformed_entry, lacks_string, h]
      · simp [malformed_entry, lacks_string, h]
    cases hobj2 : doc.IsObject with
    | false => simp [load_channel_map, hobj2]
    | true =>
      simp only [load_channel_map, hobj2, not_true_eq_false, if_false]
      exact load_services_eq_none_of_mem doc.members [] entry hmem (load_service_malformed hbad)
  · intro service_name settings hvalid hcurl
    obtain ⟨a, b, d, e, f, -, -, -, -, -, hbody⟩ :=
      load_service_of_valid Init service_name hvalid
    constructor
    · rw [hbody]
      simp [make_service_channel, hcurl]
    · intro Init2
      obtain ⟨a3, b3, d3, e3, f3, h1, h2, h3, h4, h5, -⟩ :=
        load_service_of_valid Init service_name hvalid
      simp [load_service, Json.IsObject, Json.members, h1, h2, h3, h4, h5, hcurl,
        make_service_channel]

/-- Witness of the amended C14: a `curl` entry without `naming_service_url` after
a valid entry fails the document; a `curl` entry with both strings empty loads
without a channel, also when `Init` would fail. -/
theorem curl_entry_requires_url_and_balancer_witness :
    load_channel_map initOk (ConfFile.document
      (.obj [("echo", echoSettings), ("direct", curlSettingsNoUrl)])) = none ∧
    (∃ service_channel,
      load_service initFails "direct" curlSettingsEmpty = some service_channel ∧
      service_channel.channel = none) :=
  ⟨(curl_entry_requires_url_and_balancer initOk).1
      (.obj [("echo", echoSettings), ("direct", curlSettingsNoUrl)])
      ("direct", curlSettingsNoUrl) curlSettingsNoUrl.members (by simp [Json.members]) rfl
      rfl (Or.inl rfl),
   ((curl_entry_requires_url_and_balancer initFails).2 "direct" curlSettingsEmpty.members
      (by decide) (by decide)).1⟩

/-- C15: the curl path ignores `max_retry`. Two runs of `call_http_by_curl` that
differ only in `max_retry` have the same outcome (return code, result body,
`remote_side`, `latency`) and hand the same requests to libcurl; a run performs
at most one request, exactly one once `curl_easy_init` has succeeded, so nothing
is retried. The same holds for `call` on an entry without a channel. -/
theorem call_http_by_curl_ignores_max_retry (t : Transports) (url : String)
    (method : HttpMethod) (headers : List (String × String)) (payload : String)
    (timeout_ms max_retry1 max_retry2 : Int) (result remote_side : String) (latency : Int) :
    call_http_by_curl t url method headers payload timeout_ms max_retry1 result remote_side
        latency =
      call_http_by_curl t url method headers payload timeout_ms max_retry2 result remote_side
        latency ∧
    (call_http_by_curl t url method headers payload timeout_ms max_retry1 result remote_side
      latency).sent.length ≤ 1 ∧
    (t.curl_easy_init = true →
      (call_http_by_curl t url method headers payload timeout_ms max_retry1 result remote_side
        latency).sent =
        [Sent.curl
          { url := url,
            post := if method = HttpMethod.HTTP_METHOD_POST then some payload else none,
            httpheader := curl_header_lines headers, timeout_ms := timeout_ms }]) ∧
    (∀ (service_channel : RemoteServiceChannel) (params : RemoteServiceParam)
        (res : RemoteServiceResult),
      service_channel.channel = none →
      dispatch t { service_channel with max_retry := max_retry2 } params res =
        dispatch t service_channel params res) := by
  refine ⟨rfl, ?_, ?_, ?_⟩
  · rw [call_http_by_curl_sent]
    split <;> simp
  · intro hinit
    rw [call_http_by_curl_sent]
    simp [hinit]
  · intro service_channel params res hnone
    simp only [dispatch, hnone]
    rfl

/-- C15 at a concrete input: a run with `max_retry` 0 and a run with `max_retry`
5 against the stub server. -/
theorem call_http_by_curl_ignores_max_retry_witness :
    call_http_by_curl pongTransports "/ping" HttpMethod.HTTP_METHOD_GET [] "" 100 0 "" "" 0 =
      call_http_by_curl pongTransports "/ping" HttpMethod.HTTP_METHOD_GET [] "" 100 5 "" "" 0 ∧
    (call_http_by_curl pongTransports "/ping" HttpMethod.HTTP_METHOD_GET [] "" 100 5 "" "" 0).sent
      = [Sent.curl { url := "/ping", post := none, httpheader := [], timeout_ms := 100 }] :=
  ⟨(call_http_by_curl_ignores_max_retry pongTransports "/ping" HttpMethod.HTTP_METHOD_GET []
      "" 100 0 5 "" "" 0).1,
   (call_http_by_curl_ignores_max_retry pongTransports "/ping" HttpMethod.HTTP_METHOD_GET []
      "" 100 5 0 "" "" 0).2.2.1 rfl⟩

/-! ### Lemmas about sequences of reloads -/

theorem reload_conf_file_path (Init : ChannelInit) (fs : FileSystem)
    (self : RemoteServiceManager) :
    (reload Init fs self).2._conf_file_path = self._conf_file_path := by
  unfold reload
  cases load_channel_map Init (fs self._conf_file_path) <;> rfl

theorem reload_published (Init : ChannelInit) (fs : FileSystem) (self : RemoteServiceManager)
    (channel_map : ChannelMap) (h : self._p_channel_map = some channel_map) :
    (reload Init fs self).2._p_channel_map =
      some ((load_channel_map Init (fs self._conf_file_path)).getD channel_map) := by
  unfold reload
  cases load_channel_map Init (fs self._conf_file_path) with
  | none => simpa using h
  | some loaded => rfl

theorem run_reloads_published :
    ∀ (envs : List (ChannelInit × FileSystem)) (self : RemoteServiceManager)
      (channel_map : ChannelMap), self._p_channel_map = some channel_map →
      (run_reloads envs self)._p_channel_map =
        some (latest_loaded self._conf_file_path envs channel_map)
  | [], self, channel_map, h => by
    simpa [run_reloads, latest_loaded] using h
  | env :: rest, self, channel_map, h => by
    unfold run_reloads
    rw [run_reloads_published rest _ _ (reload_published env.1 env.2 self channel_map h),
      reload_conf_file_path]
    unfold latest_loaded
    rw [List.reverse_cons, List.findSome?_append]
    cases hrest : rest.reverse.findSome?
        (fun env => load_channel_map env.1 (env.2 self._conf_file_path)) with
    | some newest => simp
    | none =>
      simp only [List.findSome?_cons, List.findSome?_nil, Option.none_or]
      cases load_channel_map env.1 (env.2 self._conf_file_path) <;> rfl

/-- C16: once `init` has returned 0, the published snapshot is non-null, and in
every state reached by a finite sequence of `reload` invocations, failing or
not, it is non-null and is the snapshot built by the most recent successful load
(that of `init` when no reload has succeeded since). -/
theorem published_snapshot_after_init (Init : ChannelInit) (fs : FileSystem)
    (self : RemoteServiceManager) (path conf : Option String)
    (hinit : (init Init fs self path conf).1 = 0) :
    ∃ first,
      load_channel_map Init (fs (init Init fs self path conf).2._conf_file_path) = some first ∧
      (init Init fs self path conf).2._p_channel_map = some first ∧
      ∀ envs : List (ChannelInit × FileSystem),
        (run_reloads envs (init Init fs self path conf).2)._p_channel_map ≠ none ∧
        (run_reloads envs (init Init fs self path conf).2)._p_channel_map =
          some (latest_loaded (init Init fs self path conf).2._conf_file_path envs first) := by
  have hstate : ∃ first,
      load_channel_map Init (fs (init Init fs self path conf).2._conf_file_path) = some first ∧
      (init Init fs self path conf).2._p_channel_map = some first := by
    unfold init at hinit ⊢
    simp only at hinit ⊢
    split at hinit
    · simp at hinit
    · rename_i first hfirst
      simp only [hfirst]
      exact ⟨first, rfl, rfl⟩
  obtain ⟨first, hload, hpublished⟩ := hstate
  refine ⟨first, hload, hpublished, fun envs => ?_⟩
  have h := run_reloads_published envs _ first hpublished
  exact ⟨by rw [h]; simp, h⟩

/-- Witness of C16: `init` on `echoDocument`, then a reload of a malformed
document, a reload of a document with one `curl` service, and a reload whose
`Init` fails; the snapshot of the second reload stays published. -/
theorem published_snapshot_after_init_witness :
    (init initOk echoFiles freshManager (some "conf") (some "remote_services.json")).1 = 0 ∧
    (run_reloads [(initOk, brokenFiles), (initOk, directFiles), (initFails, echoFiles)]
      (init initOk echoFiles freshManager (some "conf")
        (some "remote_services.json")).2)._p_channel_map ≠ none ∧
    (run_reloads [(initOk, brokenFiles), (initOk, directFiles), (initFails, echoFiles)]
      (init initOk echoFiles freshManager (some "conf")
        (some "remote_services.json")).2)._p_channel_map = some [("direct", curlChannel)] ∧
    (run_reloads [(initOk, brokenFiles)]
      (init initOk echoFiles freshManager (some "conf")
        (some "remote_services.json")).2)._p_channel_map = some echoMap := by
  refine ⟨by decide, ?_, by decide, by decide⟩
  obtain ⟨first, -, -, h⟩ := published_snapshot_after_init initOk echoFiles freshManager
    (some "conf") (some "remote_services.json") (by decide)
  exact (h [(initOk, brokenFiles), (initOk, directFiles), (initFails, echoFiles)]).1

/-- C17: `call` never changes the snapshot it works on. For every manager,
service name (present or absent) and request, the snapshot after the call is
the published snapshot as it was before, entry for entry: the same keys in the
same order with the same name, protocol, channel, `timeout_ms`, `max_retry` and
headers. In particular the subscript lookup is only reached for a key that
`find` has found, where it returns that entry and inserts nothing. -/
theorem call_leaves_snapshot (t : Transports) (self : RemoteServiceManager)
    (service_name : String) (params : RemoteServiceParam) (result : RemoteServiceResult) :
    (call t self service_name params result).channel_map = self._p_channel_map ∧
    (∀ channel_map, self._p_channel_map = some channel_map →
      (call t self service_name params result).channel_map = some channel_map ∧
      ∀ key, ((call t self service_name params result).channel_map.map
          fun after => ChannelMap.find after key) = some (ChannelMap.find channel_map key)) ∧
    (∀ (channel_map : ChannelMap) (service_channel : RemoteServiceChannel),
      ChannelMap.find channel_map service_name = some service_channel →
      ChannelMap.subscript channel_map service_name = (service_channel, channel_map)) := by
  have hsame : (call t self service_name params result).channel_map = self._p_channel_map := by
    cases hpublished : self._p_channel_map with
    | none => simp [call, hpublished]
    | some channel_map =>
      cases hfind : ChannelMap.find channel_map service_name with
      | none => simp [call, hpublished, hfind]
      | some service_channel =>
        rw [call_of_find params result hpublished hfind]
  refine ⟨hsame, ?_, fun _ _ h => ChannelMap.subscript_of_find h⟩
  intro channel_map hpublished
  rw [hsame, hpublished]
  exact ⟨rfl, fun _ => rfl⟩

/-- C17 at concrete inputs: a call on a present service that reaches the pooled
transport, and a call on an absent service, both leave `echoMap` as it is. -/
theorem call_leaves_snapshot_witness :
    (call pongTransports echoManager "echo" pingParam { result := "" }).channel_map
      = some echoMap ∧
    (call pongTransports echoManager "absent" pingParam { result := "" }).channel_map
      = some echoMap :=
  ⟨(call_leaves_snapshot pongTransports echoManager "echo" pingParam { result := "" }).1,
   (call_leaves_snapshot pongTransports echoManager "absent" pingParam { result := "" }).1⟩

/-! ### Lemmas about the latency conversion -/

theorem wrapInt32_of_range {x : Int} (hlow : -2147483648 ≤ x) (hhigh : x ≤ 2147483647) :
    wrapInt32 x = x := by
  unfold wrapInt32
  omega

theorem latency_ms_eq_floor {latency_us : Int} (hlow : 0 ≤ latency_us)
    (hhigh : latency_us < 2147483648000) :
    wrapInt32 (Int.tdiv latency_us 1000) = Int.fdiv latency_us 1000 := by
  rw [Int.tdiv_eq_ediv hlow (by decide), Int.fdiv_eq_ediv latency_us (by decide)]
  apply wrapInt32_of_range <;> omega

/-- C19 fails as stated: for a controller that reports a latency of -1500
microseconds the pooled path sets `latency` to -1, not to the floor -2; and for
one that reports 2147483648000 microseconds it sets -2147483648, not 2147483648. -/
theorem pooled_latency_is_not_floor :
    ((call_http_by_BRPC_NAMESPACE (failedAfter (-1500)) echoHandle "/ping"
        HttpMethod.HTTP_METHOD_GET [] "" "old" "" 0).latency = -1 ∧
      Int.fdiv (-1500) 1000 = -2) ∧
    ((call_http_by_BRPC_NAMESPACE (failedAfter 2147483648000) echoHandle "/ping"
        HttpMethod.HTTP_METHOD_GET [] "" "old" "" 0).latency = -2147483648 ∧
      Int.fdiv 2147483648000 1000 = 2147483648) := by
  refine ⟨⟨by decide, by decide⟩, ⟨by decide, by decide⟩⟩

/-- C19 as amended: in the pooled path, for every controller outcome,
`remote_side` is set to the controller's endpoint string and `latency` to
`latency_us / 1000` in C++ integer division (rounding toward zero) converted to
`int`, both when the call fails (return -1, result body unchanged) and when it
succeeds (return 0, result body set to the response attachment); this `latency`
is the floor of `latency_us / 1000` whenever `0 ≤ latency_us < 2147483648000`.
So `call` on a pooled entry whose backend call fails logs that endpoint and
latency with `ret:-1`. -/
theorem pooled_outcome_carries_endpoint_and_latency (t : Transports) (channel : Channel)
    (url : String) (method : HttpMethod) (headers : List (String × String)) (payload : String)
    (result remote_side : String) (latency : Int) (outcome : ControllerOutcome)
    (houtcome : t.CallMethod channel
      { uri := url, method := method,
        request_attachment := if method = HttpMethod.HTTP_METHOD_POST then payload else "",
        header_calls := brpc_header_calls headers } = outcome) :
    ((call_http_by_BRPC_NAMESPACE t channel url method headers payload result remote_side
        latency).remote_side = outcome.remote_side ∧
      (call_http_by_BRPC_NAMESPACE t channel url method headers payload result remote_side
        latency).latency = wrapInt32 (Int.tdiv outcome.latency_us 1000)) ∧
    (outcome.Failed = true →
      (call_http_by_BRPC_NAMESPACE t channel url method headers payload result remote_side
        latency).ret = -1 ∧
      (call_http_by_BRPC_NAMESPACE t channel url method headers payload result remote_side
        latency).result = result) ∧
    (outcome.Failed = false →
      (call_http_by_BRPC_NAMESPACE t channel url method headers payload result remote_side
        latency).ret = 0 ∧
      (call_http_by_BRPC_NAMESPACE t channel url method headers payload result remote_side
        latency).result = outcome.response_attachment) ∧
    (0 ≤ outcome.latency_us → outcome.latency_us < 2147483648000 →
      (call_http_by_BRPC_NAMESPACE t channel url method headers payload result remote_side
        latency).latency = Int.fdiv outcome.latency_us 1000) ∧
    (outcome.Failed = true →
      ∀ (self : RemoteServiceManager) (channel_map : ChannelMap) (service_name : String)
        (service_channel : RemoteServiceChannel) (res : RemoteServiceResult),
        self._p_channel_map = some channel_map →
        ChannelMap.find channel_map service_name = some service_channel →
        service_channel.protocol = "http" → service_channel.channel = some channel →
        service_channel.headers = headers →
        (call t self service_name { url := url, http_method := method, payload := payload }
          res).notices =
          [("service_" ++ service_name,
            "remote:" ++ outcome.remote_side ++ "|tm:"
              ++ to_string (wrapInt32 (Int.tdiv outcome.latency_us 1000)) ++ "|ret:"
              ++ to_string (-1))]) := by
  have hshape : ∀ (res0 rs0 : String) (lat0 : Int),
      call_http_by_BRPC_NAMESPACE t channel url method headers payload res0 rs0 lat0 =
        { ret := if outcome.Failed then -1 else 0
          result := if outcome.Failed then res0 else outcome.response_attachment
          remote_side := outcome.remote_side
          latency := wrapInt32 (Int.tdiv outcome.latency_us 1000)
          sent := [Sent.brpc channel
            { uri := url, method := method,
              request_attachment := if method = HttpMethod.HTTP_METHOD_POST then payload else "",
              header_calls := brpc_header_calls headers }] } := by
    intro res0 rs0 lat0
    unfold call_http_by_BRPC_NAMESPACE
    simp only [houtcome]
    cases outcome.Failed <;> simp
  refine ⟨?_, ?_, ?_, ?_, ?_⟩
  · rw [hshape]
    exact ⟨rfl, rfl⟩
  · intro hfailed
    rw [hshape]
    simp [hfailed]
  · intro hfailed
    rw [hshape]
    simp [hfailed]
  · intro hlow hhigh
    rw [hshape]
    exact latency_ms_eq_floor hlow hhigh
  · intro hfailed self channel_map service_name service_channel res hpublished hfind hprotocol
      hchannel hheaders
    rw [call_of_find _ res hpublished hfind]
    simp only [dispatch, hprotocol, hchannel, hheaders, if_true, hshape, hfailed]

/-- Witness of the amended C19: a failed call after 5300 microseconds and a
successful call after 5000 microseconds. -/
theorem pooled_outcome_carries_endpoint_and_latency_witness :
    ((call_http_by_BRPC_NAMESPACE (failedAfter 5300) echoHandle "/ping"
        HttpMethod.HTTP_METHOD_GET [] "" "old" "" 0).remote_side = "10.0.0.1:80" ∧
      (call_http_by_BRPC_NAMESPACE (failedAfter 5300) echoHandle "/ping"
        HttpMethod.HTTP_METHOD_GET [] "" "old" "" 0).latency = 5 ∧
      (call_http_by_BRPC_NAMESPACE (failedAfter 5300) echoHandle "/ping"
        HttpMethod.HTTP_METHOD_GET [] "" "old" "" 0).ret = -1 ∧
      (call_http_by_BRPC_NAMESPACE (failedAfter 5300) echoHandle "/ping"
        HttpMethod.HTTP_METHOD_GET [] "" "old" "" 0).result = "old") ∧
    ((call_http_by_BRPC_NAMESPACE pongTransports echoHandle "/ping"
        HttpMethod.HTTP_METHOD_GET [] "" "old" "" 0).ret = 0 ∧
      (call_http_by_BRPC_NAMESPACE pongTransports echoHandle "/ping"
        HttpMethod.HTTP_METHOD_GET [] "" "old" "" 0).result = "pong") := by
  have hfailed := pooled_outcome_carries_endpoint_and_latency (failedAfter 5300) echoHandle
    "/ping" HttpMethod.HTTP_METHOD_GET [] "" "old" "" 0
    { Failed := true, response_attachment := "", remote_side := "10.0.0.1:80",
      latency_us := 5300 } rfl
  have hpong := pooled_outcome_carries_endpoint_and_latency pongTransports echoHandle
    "/ping" HttpMethod.HTTP_METHOD_GET [] "" "old" "" 0
    { Failed := false, response_attachment := "pong", remote_side := "127.0.0.1:8000",
      latency_us := 5000 } rfl
  refine ⟨⟨hfailed.1.1, ?_, (hfailed.2.1 rfl).1, (hfailed.2.1 rfl).2⟩,
    ⟨(hpong.2.2.1 rfl).1, (hpong.2.2.1 rfl).2⟩⟩
  rw [hfailed.2.2.2.1 (by decide) (by decide)]
  decide

/-! ### Lemmas about repeated service names -/

theorem ChannelMap.keys_insert_nodup {m : ChannelMap} (key : String)
    (value : RemoteServiceChannel) (h : (ChannelMap.keys m).Nodup) :
    (ChannelMap.keys (ChannelMap.insert m key value)).Nodup := by
  unfold ChannelMap.insert
  cases hfind : ChannelMap.find m key with
  | some old => exact h
  | none =>
    have habsent := (ChannelMap.find_eq_none_iff m key).mp hfind
    simp only [ChannelMap.keys, List.map_append, List.map_cons, List.map_nil] at habsent ⊢
    rw [List.nodup_append]
    refine ⟨h, List.nodup_singleton _, ?_⟩
    intro a ha hb
    rw [List.mem_singleton] at hb
    subst hb
    exact habsent ha

theorem load_services_keys_nodup {Init : ChannelInit} :
    ∀ (members : List (String × Json)) (channel_map loaded : ChannelMap),
      load_services Init members channel_map = some loaded →
      (ChannelMap.keys channel_map).Nodup → (ChannelMap.keys loaded).Nodup
  | [], channel_map, loaded, h, hnodup => by
    simp only [load_services, Option.some.injEq] at h
    subst h
    exact hnodup
  | (name, value) :: rest, channel_map, loaded, h, hnodup => by
    unfold load_services at h
    cases hhead : load_service Init (c_str name) value with
    | none => simp [hhead] at h
    | some ch =>
      simp only [hhead] at h
      exact load_services_keys_nodup rest _ loaded h
        (ChannelMap.keys_insert_nodup (c_str name) ch hnodup)

theorem FindService_first_occurrence (before after : List (String × Json)) (name : String)
    (value : Json) (hfirst : ∀ member ∈ before, c_str member.1 ≠ c_str name) :
    FindService (before ++ (name, value) :: after) (c_str name) = some value := by
  induction before with
  | nil => simp [FindService]
  | cons head rest ih =>
    obtain ⟨k, v⟩ := head
    have hk : ¬ c_str k = c_str name := hfirst (k, v) (List.mem_cons_self _ _)
    simp only [List.cons_append, FindService, hk, if_false]
    exact ih fun member hmem => hfirst member (List.mem_cons_of_mem _ hmem)

theorem ChannelMap.eq_of_mem_of_find {m : ChannelMap} (hnodup : (ChannelMap.keys m).Nodup)
    {key : String} {found value : RemoteServiceChannel}
    (hfind : ChannelMap.find m key = some found) (hmem : (key, value) ∈ m) : value = found := by
  induction m with
  | nil => simp at hmem
  | cons head rest ih =>
    obtain ⟨k, v⟩ := head
    simp only [ChannelMap.keys, List.map_cons, List.nodup_cons] at hnodup
    by_cases hk : k = key
    · subst hk
      simp only [ChannelMap.find, if_true, Option.some.injEq] at hfind
      rcases List.mem_cons.mp hmem with heq | hrest
      · rw [← hfind]
        exact (Prod.mk.inj heq).2
      · exact absurd (List.mem_map.mpr ⟨(k, value), hrest, rfl⟩) hnodup.1
    · simp only [ChannelMap.find, hk, if_false] at hfind
      rcases List.mem_cons.mp hmem with heq | hrest
      · exact absurd (Prod.mk.inj heq).1.symm hk
      · exact ih hnodup.2 hfind hrest

/-- C20 fails as stated: in `nulTwiceDocument` the name `echo` occurs twice, its
first occurrence being `echoSettings`, which loads to the pooled `echoChannel`;
yet the one entry of the snapshot for `echo` is the `curl` entry built from the
earlier member named `echo`, NUL, `old`. -/
theorem first_occurrence_shadowed_by_nul_name :
    FindMember nulTwiceDocument.members "echo" = some echoSettings ∧
    load_service initOk "echo" echoSettings = some echoChannel ∧
    load_channel_map initOk (ConfFile.document nulTwiceDocument)
      = some [("echo", echoCurlChannel)] ∧
    echoCurlChannel ≠ echoChannel := by
  refine ⟨rfl, by decide, by decide, by decide⟩

/-- C20 as amended: a document in which several service entries have the same
name as the loader reads it (up to the first NUL), in particular one that names
a service more than once, loads when every one of its entries passes the loop
body, and fails when any of them, a later one included, does not. A loaded
snapshot has no key twice, and for a name as read it holds exactly one entry,
the one the loop body made of the first entry in document order whose name reads
so: later ones do not replace its protocol, channel, `timeout_ms`, `max_retry`
or headers. -/
theorem repeated_service_name_keeps_first (Init : ChannelInit) (doc : Json) :
    (doc.IsObject = true →
      (∀ entry ∈ doc.members, (load_service Init entry.1 entry.2).isSome = true) →
      (load_channel_map Init (ConfFile.document doc)).isSome = true) ∧
    (∀ entry ∈ doc.members, load_service Init entry.1 entry.2 = none →
      load_channel_map Init (ConfFile.document doc) = none) ∧
    (∀ loaded, load_channel_map Init (ConfFile.document doc) = some loaded →
      (ChannelMap.keys loaded).Nodup ∧
      ∀ (before after : List (String × Json)) (name : String) (value : Json),
        doc.members = before ++ (name, value) :: after →
        (∀ member ∈ before, c_str member.1 ≠ c_str name) →
        ∃ service_channel, load_service Init (c_str name) value = some service_channel ∧
          ChannelMap.find loaded (c_str name) = some service_channel ∧
          (ChannelMap.keys loaded).count (c_str name) = 1 ∧
          ∀ other, (c_str name, other) ∈ loaded → other = service_channel) := by
  refine ⟨?_, ?_, ?_⟩
  · intro hobj hall
    simp only [load_channel_map, hobj, not_true_eq_false, if_false]
    exact load_services_isSome doc.members [] hall
  · intro entry hmem hnone
    cases hobj : doc.IsObject with
    | false => simp [load_channel_map, hobj]
    | true =>
      simp only [load_channel_map, hobj, not_true_eq_false, if_false]
      exact load_services_eq_none_of_mem doc.members [] entry hmem hnone
  · intro loaded hload
    obtain ⟨doc2, hdoc, -, hloop⟩ := load_channel_map_eq_some hload
    cases hdoc
    have hnodup : (ChannelMap.keys loaded).Nodup :=
      load_services_keys_nodup doc.members [] loaded hloop (by simp [ChannelMap.keys])
    refine ⟨hnodup, ?_⟩
    intro before after name value hsplit hfirst
    have hentry : FindService doc.members (c_str name) = some value := by
      rw [hsplit]
      exact FindService_first_occurrence before after name value hfirst
    obtain ⟨service_channel, hbody, hfind⟩ := load_channel_map_find hload hentry
    refine ⟨service_channel, hbody, hfind, ?_, ?_⟩
    · apply List.count_eq_one_of_mem hnodup
      exact List.mem_map.mpr ⟨(c_str name, service_channel), ChannelMap.mem_of_find hfind, rfl⟩
    · intro other hother
      exact ChannelMap.eq_of_mem_of_find hnodup hfind hother

/-- Witness of the amended C20: `twiceDocument` loads to `echoMap`, the entry of
the first `echo`; the same document with a malformed third `echo` does not load;
`nulTwiceDocument` keeps the entry of its first member. -/
theorem repeated_service_name_keeps_first_witness :
    load_channel_map initOk (ConfFile.document twiceDocument) = some echoMap ∧
    (∃ service_channel, load_service initOk "echo" echoSettings = some service_channel ∧
      ChannelMap.find echoMap "echo" = some service_channel ∧
      (ChannelMap.keys echoMap).count "echo" = 1) ∧
    load_channel_map initOk (ConfFile.document
      (.obj (twiceDocument.members ++ [("echo", .int 3)]))) = none ∧
    (∃ service_channel,
      load_service initOk "echo" (echoSettingsWithClient (.str "curl")) = some service_channel ∧
      ChannelMap.find [("echo", echoCurlChannel)] "echo" = some service_channel) := by
  refine ⟨by decide, ?_, ?_, ?_⟩
  · obtain ⟨service_channel, h1, h2, h3, -⟩ :=
      ((repeated_service_name_keeps_first initOk twiceDocument).2.2 echoMap (by decide)).2
        [] (twiceDocument.members.drop 1) "echo" echoSettings rfl (by simp)
    exact ⟨service_channel, h1, h2, h3⟩
  · exact (repeated_service_name_keeps_first initOk
      (.obj (twiceDocument.members ++ [("echo", .int 3)]))).2.1 ("echo", .int 3)
      (by simp [Json.members]) rfl
  · obtain ⟨service_channel, h1, h2, -, -⟩ :=
      ((repeated_service_name_keeps_first initOk nulTwiceDocument).2.2
        [("echo", echoCurlChannel)] (by decide)).2
        [] (nulTwiceDocument.members.drop 1) "echo\x00old"
        (echoSettingsWithClient (.str "curl")) rfl (by simp)
    exact ⟨service_channel, h1, h2⟩

end dmkit
